import Mathlib

/-!
Verification development for the game-store system: a shallow embedding of
the Tetris room server (`src/game/server.py`), the document store
(`src/server/db.py`), the player lobby (`src/server/player_server.py`) and
the developer lobby (`src/server/developer_server.py`), together with
theorems settling the specification claims about them.

Conventions of the embedding:
  * Python ints are `Int` (board cell colour codes, which are 0..7, are `Nat`).
  * Python dicts are association lists with dict update semantics
    (assignment to an existing key replaces it in place, a new key appends).
  * The pseudo-random generator `random.Random(seed).randint(0, hi)` is
    abstracted as a call-indexed oracle `rng : Nat -> Nat -> Nat`
    (call counter, upper bound); theorems quantify over all oracles and
    hence over all seeds.
  * Fallible code is modelled with `Except`/`Option`; a raised Python
    exception that the source does not catch is an `Except.error`.
-/

namespace GameSrv

/-- Board width, from `BOARD_W = 10`. -/
def BOARD_W : Nat := 10

/-- Board height, from `BOARD_H = 20`. -/
def BOARD_H : Nat := 20

/-- Spawn x coordinate, from `SPAWN_X = 4`. -/
def SPAWN_X : Int := 4

/-- Spawn y coordinate, from `SPAWN_Y = -1`. -/
def SPAWN_Y : Int := -1

/-- `TETROMINO_BASE`: rotation-0 block offsets of each piece kind, keyed by
the kind string exactly as in the source dict. -/
def TETROMINO_BASE : List (String × List (Int × Int)) :=
  [("I", [(-2,0),(-1,0),(0,0),(1,0)]),
   ("O", [(0,0),(1,0),(0,1),(1,1)]),
   ("T", [(-1,0),(0,0),(1,0),(0,1)]),
   ("S", [(-1,1),(0,1),(0,0),(1,0)]),
   ("Z", [(-1,0),(0,0),(0,1),(1,1)]),
   ("J", [(-1,0),(0,0),(1,0),(-1,1)]),
   ("L", [(-1,0),(0,0),(1,0),(1,1)])]

/-- Base coordinates of a kind (`TETROMINO_BASE[kind]`; only ever called
with one of the seven kinds, so the default is dead). -/
def baseCoords (kind : String) : List (Int × Int) :=
  (TETROMINO_BASE.lookup kind).getD []

/-- `COLOR_CODE` dict from the source. -/
def COLOR_CODE : List (String × Nat) :=
  [("I",1),("O",2),("T",3),("S",4),("Z",5),("J",6),("L",7)]

/-- Colour code of a kind (`COLOR_CODE[kind]`). -/
def colorCode (kind : String) : Nat :=
  (COLOR_CODE.lookup kind).getD 0

/-- `rotate_cw`: (x,y) -> (y,-x) on every coordinate. -/
def rotate_cw (coords : List (Int × Int)) : List (Int × Int) :=
  coords.map (fun c => (c.2, -c.1))

/-- Apply `rotate_cw` n times (the loop in `Piece.get_blocks`). -/
def rotN : Nat → List (Int × Int) → List (Int × Int)
  | 0, c => c
  | n+1, c => rotN n (rotate_cw c)

/-- `JLSTZ_KICKS` wall-kick dict from the source. -/
def JLSTZ_KICKS : List ((Nat × Nat) × List (Int × Int)) :=
  [((0,1), [(0,0), (-1,0), (-1,1), (0,-2), (-1,-2)]),
   ((1,0), [(0,0), (1,0), (1,-1), (0,2), (1,2)]),
   ((1,2), [(0,0), (1,0), (1,-1), (0,2), (1,2)]),
   ((2,1), [(0,0), (-1,0), (-1,1), (0,-2), (-1,-2)]),
   ((2,3), [(0,0), (1,0), (1,1), (0,-2), (1,-2)]),
   ((3,2), [(0,0), (-1,0), (-1,-1), (0,2), (-1,2)]),
   ((3,0), [(0,0), (-1,0), (-1,-1), (0,2), (-1,2)]),
   ((0,3), [(0,0), (1,0), (1,1), (0,-2), (1,-2)])]

/-- `I_KICKS` wall-kick dict from the source. -/
def I_KICKS : List ((Nat × Nat) × List (Int × Int)) :=
  [((0,1), [(0,0), (-2,0), (1,0), (-2,-1), (1,2)]),
   ((1,0), [(0,0), (2,0), (-1,0), (2,1), (-1,-2)]),
   ((1,2), [(0,0), (-1,0), (2,0), (-1,2), (2,-1)]),
   ((2,1), [(0,0), (1,0), (-2,0), (1,-2), (-2,1)]),
   ((2,3), [(0,0), (2,0), (-1,0), (2,1), (-1,-2)]),
   ((3,2), [(0,0), (-2,0), (1,0), (-2,-1), (1,2)]),
   ((3,0), [(0,0), (1,0), (-2,0), (1,-2), (-2,1)]),
   ((0,3), [(0,0), (-1,0), (2,0), (-1,2), (2,-1)])]

/-- `get_kicks(piece_type, from_state, to_state)`. -/
def get_kicks (pieceType : String) (fromState toState : Nat) : List (Int × Int) :=
  let key := (fromState, toState)
  if pieceType = "I" then
    (I_KICKS.lookup key).getD [(0,0)]
  else if pieceType = "O" then
    [(0,0)]
  else
    (JLSTZ_KICKS.lookup key).getD [(0,0)]

/-- A current piece: `Piece.__init__(kind, x, y, orientation)`. -/
structure Piece where
  kind : String
  x : Int
  y : Int
  orientation : Nat
  deriving Repr, DecidableEq

/-- `Piece.get_blocks(orientation, x, y)` with every argument supplied. -/
def getBlocksAt (p : Piece) (o : Nat) (x y : Int) : List (Int × Int) :=
  (rotN (o % 4) (baseCoords p.kind)).map (fun c => (x + c.1, y + c.2))

/-- `Piece.get_blocks()` with all defaults. -/
def getBlocks (p : Piece) : List (Int × Int) :=
  getBlocksAt p p.orientation p.x p.y

/-- Board cell read `board[y][x]`; only used under the guards that make
the Python indexing safe (`0 <= y < BOARD_H`, `0 <= x < BOARD_W`). -/
def cellAt (board : List (List Nat)) (x y : Int) : Nat :=
  (board.getD y.toNat []).getD x.toNat 0

/-- `in_bounds(x, y)`: `0 <= x < BOARD_W and y < BOARD_H`. -/
def in_bounds (x y : Int) : Bool :=
  0 ≤ x && x < (BOARD_W : Int) && y < (BOARD_H : Int)

/-- `collides(board, blocks)`: a block collides when `y >= 0` and it is out
of bounds or the board cell is occupied (truthy). -/
def collides (board : List (List Nat)) (blocks : List (Int × Int)) : Bool :=
  blocks.any (fun b => 0 ≤ b.2 && (!(in_bounds b.1 b.2) || cellAt board b.1 b.2 != 0))

/-- Write one board cell (`board[y][x] = v`), indices already in range. -/
def setCell (board : List (List Nat)) (r c v : Nat) : List (List Nat) :=
  board.set r ((board.getD r []).set c v)

/-- `place_on_board(board, blocks, kind)`: paint each block whose cell is
inside the board. -/
def place_on_board (board : List (List Nat)) (blocks : List (Int × Int))
    (kind : String) : List (List Nat) :=
  blocks.foldl
    (fun bd b =>
      if 0 ≤ b.2 && b.2 < (BOARD_H : Int) && 0 ≤ b.1 && b.1 < (BOARD_W : Int) then
        setCell bd b.2.toNat b.1.toNat (colorCode kind)
      else bd)
    board

/-- A row is full when every cell is truthy (`all(row)`). -/
def rowFull (row : List Nat) : Bool :=
  row.all (fun c => c != 0)

/-- `clear_lines(board)`: keep non-full rows, prepend one empty row per
cleared row, return the new board and the cleared count. -/
def clear_lines (board : List (List Nat)) : List (List Nat) × Nat :=
  let cleared := (board.filter rowFull).length
  let kept := board.filter (fun row => !(rowFull row))
  (List.replicate cleared (List.replicate BOARD_W 0) ++ kept, cleared)

/-- `score_for_clear(lines_cleared)`. -/
def score_for_clear (linesCleared : Nat) : Nat :=
  if linesCleared = 0 then 0
  else if linesCleared = 1 then 100
  else if linesCleared = 2 then 300
  else if linesCleared = 3 then 500
  else if linesCleared = 4 then 800
  else linesCleared * 200

/-- The seven kinds in `TETROMINO_BASE` insertion order, as produced by
`list(TETROMINO_BASE.keys())` in `BagGenerator._refill`. -/
def baseBag : List String := ["I", "O", "T", "S", "Z", "J", "L"]

/-- Swap positions i and j of a list (`bag[i], bag[j] = bag[j], bag[i]`).
At every call site i and j are in range, so the fall-through is dead. -/
def swapL (l : List String) (i j : Nat) : List String :=
  match l.get? i, l.get? j with
  | some a, some b => (l.set i b).set j a
  | _, _ => l

/-- The Fisher-Yates loop of `_refill`: `for i in range(len(bag)-1, 0, -1)`
with `j = rng.randint(0, i)`; `ctr` is the rng call counter and `i` the
loop variable (counting down to 1). -/
def shuffleSteps (rng : Nat → Nat → Nat) (ctr : Nat) (bag : List String) :
    Nat → List String
  | 0 => bag
  | i+1 => shuffleSteps rng (ctr+1) (swapL bag (i+1) (rng ctr (i+1))) i

/-- `BagGenerator` state: the randint oracle, its call counter and the
piece queue. -/
structure BagState where
  rng : Nat → Nat → Nat
  ctr : Nat
  queue : List String

/-- `BagGenerator._refill()`: shuffle a fresh base bag and extend the
queue with it (the loop makes `len(bag)-1 = 6` rng calls). -/
def bagRefill (s : BagState) : BagState :=
  { s with queue := s.queue ++ shuffleSteps s.rng s.ctr baseBag (baseBag.length - 1),
           ctr := s.ctr + (baseBag.length - 1) }

/-- `BagGenerator.next()`: refill when the queue is empty, then pop the
front.  The empty match arm is dead: a refill always appends seven kinds. -/
def bagNext (s : BagState) : String × BagState :=
  let s' := if s.queue.isEmpty then bagRefill s else s
  match s'.queue with
  | [] => ("", s')
  | k :: rest => (k, { s' with queue := rest })

/-- `BagGenerator.__init__(seed)`: empty queue, one refill. -/
def bagInit (rng : Nat → Nat → Nat) : BagState :=
  bagRefill { rng := rng, ctr := 0, queue := [] }

/-- The list of the first n outputs of successive `next()` calls. -/
def bagTake (s : BagState) : Nat → List String
  | 0 => []
  | n+1 =>
    let p := bagNext s
    p.1 :: bagTake p.2 n

/-- `PlayerState` fields relevant to the game logic.  `current` is modelled
as always present: after `__init__` the source never sets it to `None`. -/
structure PlayerState where
  role : String
  name : String
  board : List (List Nat)
  score : Nat
  lines : Nat
  alive : Bool
  bag : BagState
  nextQueue : List String
  current : Piece
  hold : Option String
  holdUsed : Bool
  lockTimer : Option Int

/-- The `while len(self.next_queue) < 7` loop of `fill_next`, with explicit
fuel; with fuel `7 - length` this is exactly the loop (each iteration grows
the queue by one, so the guard and the fuel run out together). -/
def fillNextGo (b : BagState) (q : List String) : Nat → BagState × List String
  | 0 => (b, q)
  | n+1 =>
    if q.length < 7 then
      let p := bagNext b
      fillNextGo p.2 (q ++ [p.1]) n
    else (b, q)

/-- `PlayerState.fill_next()` acting on the bag and queue. -/
def fillNext (b : BagState) (q : List String) : BagState × List String :=
  fillNextGo b q (7 - q.length)

/-- `PlayerState.spawn_new()`: fill the queue, pop the front kind, make it
the current piece at the spawn position with orientation 0, clear
`hold_used`.  The empty arm is dead: `fill_next` leaves at least 7 kinds. -/
def spawnNew (ps : PlayerState) : PlayerState :=
  let fq := fillNext ps.bag ps.nextQueue
  match fq.2 with
  | [] => { ps with bag := fq.1 }
  | kind :: rest =>
    { ps with bag := fq.1, nextQueue := rest,
              current := ⟨kind, SPAWN_X, SPAWN_Y, 0⟩,
              holdUsed := false }

/-- `GameServer._do_hold(player)`: returns the Python result (`False` when
rejected) together with the updated player. -/
def do_hold (ps : PlayerState) : Bool × PlayerState :=
  if ps.holdUsed then (false, ps)
  else
    match ps.hold with
    | none =>
      let ps1 := { ps with hold := some ps.current.kind }
      let ps2 := spawnNew ps1
      (true, { ps2 with holdUsed := true })
    | some tmp =>
      let ps1 := { ps with hold := some ps.current.kind }
      let cur : Piece := ⟨tmp, SPAWN_X, SPAWN_Y, 0⟩
      let ps2 := { ps1 with current := cur }
      let ps3 :=
        if collides ps2.board (getBlocks ps2.current) then { ps2 with alive := false }
        else ps2
      (true, { ps3 with holdUsed := true })

/-- `GameServer._lock_piece(player, hard)`. -/
def lock_piece (ps : PlayerState) (hard : Bool) : PlayerState :=
  let blocks := getBlocks ps.current
  let kind := ps.current.kind
  let board1 := place_on_board ps.board blocks kind
  let cl := clear_lines board1
  let ps1 := { ps with board := cl.1 }
  let ps2 :=
    if cl.2 ≠ 0 then
      { ps1 with lines := ps1.lines + cl.2, score := ps1.score + score_for_clear cl.2 }
    else ps1
  let ps3 := spawnNew ps2
  let ps4 :=
    if collides ps3.board (getBlocks ps3.current) then { ps3 with alive := false }
    else ps3
  let ps5 := { ps4 with lockTimer := none }
  if hard then { ps5 with score := ps5.score + 10 } else ps5

/-- The kick-scanning loop of `_try_rotate`: apply the first kick whose
translated blocks are collision-free. -/
def tryKicks (ps : PlayerState) (newO : Nat) : List (Int × Int) → Bool × PlayerState
  | [] => (false, ps)
  | k :: rest =>
    let nx := ps.current.x + k.1
    let ny := ps.current.y + k.2
    if !collides ps.board (getBlocksAt ps.current newO nx ny) then
      (true, { ps with current := { ps.current with orientation := newO, x := nx, y := ny },
                       lockTimer := none })
    else tryKicks ps newO rest

/-- `GameServer._try_rotate(player, clockwise)`.  Python computes the new
orientation as `(old + (1 if cw else -1)) % 4`; for `old` in 0..3 and Python
modulo this equals `(old + (1 or 3)) % 4` on naturals. -/
def try_rotate (ps : PlayerState) (clockwise : Bool) : Bool × PlayerState :=
  let oldO := ps.current.orientation
  let newO := (oldO + (if clockwise then 1 else 3)) % 4
  tryKicks ps newO (get_kicks ps.current.kind oldO newO)

end GameSrv

/-- A JSON value, the payload currency of the framed protocol and the
document store. -/
inductive JVal where
  | jnull
  | jb (b : Bool)
  | ji (n : Int)
  | js (s : String)
  | ja (l : List JVal)
  | jo (l : List (String × JVal))

/-- A JSON object as an association list in insertion order, the model of a
Python dict (keys are unique in every dict the programs build). -/
abbrev Obj := List (String × JVal)

mutual

/-- Structural equality of JSON values (Python `==` on parsed JSON). -/
def JVal.beq : JVal → JVal → Bool
  | .jnull, .jnull => true
  | .jb a, .jb b => a == b
  | .ji a, .ji b => a == b
  | .js a, .js b => a == b
  | .ja a, .ja b => JVal.beqArr a b
  | .jo a, .jo b => JVal.beqObj a b
  | _, _ => false

/-- Elementwise equality of JSON arrays. -/
def JVal.beqArr : List JVal → List JVal → Bool
  | [], [] => true
  | a :: as, b :: bs => JVal.beq a b && JVal.beqArr as bs
  | _, _ => false

/-- Elementwise equality of JSON objects. -/
def JVal.beqObj : Obj → Obj → Bool
  | [], [] => true
  | a :: as, b :: bs => a.1 == b.1 && JVal.beq a.2 b.2 && JVal.beqObj as bs
  | _, _ => false

end

/-- Python truthiness of a JSON value (`if v:`). -/
def JVal.truthy : JVal → Bool
  | .jnull => false
  | .jb b => b
  | .ji n => n != 0
  | .js s => !(s == "")
  | .ja l => !l.isEmpty
  | .jo l => !l.isEmpty

/-- `d.get(k)` on a dict. -/
def oget (r : Obj) (k : String) : Option JVal :=
  (r.find? (fun p => p.1 == k)).map (fun p => p.2)

/-- `d[k] = v` on a dict: replace in place when the key exists, append
otherwise. -/
def oset (r : Obj) (k : String) (v : JVal) : Obj :=
  if r.any (fun p => p.1 == k) then
    r.map (fun p => if p.1 == k then (k, v) else p)
  else r ++ [(k, v)]

/-- `d.update(other)` on dicts: assign the items of `other` in order. -/
def oupdate (r other : Obj) : Obj :=
  other.foldl (fun acc kv => oset acc kv.1 kv.2) r

namespace Store

/-- One collection of the store: records keyed by their id value. -/
abbrev Coll := List (JVal × Obj)

/-- `self.db`: the four collections keyed by name. -/
abbrev Db := List (String × Coll)

/-- `coll[key] = rec` on a collection dict. -/
def collSet (c : Coll) (key : JVal) (rec : Obj) : Coll :=
  if c.any (fun p => JVal.beq p.1 key) then
    c.map (fun p => if JVal.beq p.1 key then (key, rec) else p)
  else c ++ [(key, rec)]

/-- Collection lookup by key. -/
def collGet (c : Coll) (key : JVal) : Option Obj :=
  (c.find? (fun p => JVal.beq p.1 key)).map (fun p => p.2)

/-- Replace one collection inside the store. -/
def dbSetColl (db : Db) (name : String) (c : Coll) : Db :=
  db.map (fun p => if p.1 == name then (name, c) else p)

/-- A store-operation response: `{status, data?, errorMsg?}`. -/
structure StoreRes where
  status : String
  rdata : Option JVal
  errorMsg : Option String

/-- The per-collection timestamp stamping block of `create`: `createdAt`
for every collection, plus `lastLoginAt` and `online=False` for `Player`
and `Developer`. -/
def stampNew (collection : String) (newItem : Obj) (now : Int) : Obj :=
  if collection = "Player" then
    oset (oset (oset newItem "createdAt" (.ji now)) "lastLoginAt" (.ji now)) "online" (.jb false)
  else if collection = "Developer" then
    oset (oset (oset newItem "createdAt" (.ji now)) "lastLoginAt" (.ji now)) "online" (.jb false)
  else if collection = "Game" then
    oset newItem "createdAt" (.ji now)
  else if collection = "Room" then
    oset newItem "createdAt" (.ji now)
  else newItem

/-- `DatabaseHandler.create(collection, data)`.  `freshId` stands for
`str(uuid.uuid4())` and `now` for `int(time.time())`.  The `new_item` dict
starts as `{"id": freshId}` and is then `update`d with `data`, so a
supplied "id" key replaces the generated one.  The id-missing arm models
the `KeyError` the generic `except` would turn into an error response; it
is dead because "id" is always a key of `new_item`. -/
def create (db : Db) (collection : String) (data : Obj) (freshId : String)
    (now : Int) : StoreRes × Db :=
  match db.lookup collection with
  | none =>
    ({ status := "error", rdata := none,
       errorMsg := some ("Collection '" ++ collection ++ "' not found.") }, db)
  | some coll =>
    match oget (stampNew collection (oupdate [("id", .js freshId)] data) now) "id" with
    | none =>
      ({ status := "error", rdata := none,
         errorMsg := some "Database create error: 'id'" }, db)
    | some key =>
      ({ status := "success",
         rdata := some (.jo (stampNew collection (oupdate [("id", .js freshId)] data) now)),
         errorMsg := none },
       dbSetColl db collection
         (collSet coll key (stampNew collection (oupdate [("id", .js freshId)] data) now)))

end Store

/-- A request to the document store: `{collection, action, data}`. -/
structure DbReq where
  collection : String
  act : String
  payload : Obj

/-- Python truthiness of an optional value (`if d.get(k):`). -/
def truthyOpt (o : Option JVal) : Bool :=
  match o with
  | some v => v.truthy
  | none => false

/-- Whether a store response's "status" field equals "success". -/
def statusSuccess (res : Obj) : Bool :=
  match oget res "status" with
  | some (.js s) => s == "success"
  | _ => false

/-- Python `v[0]` on a JSON value: only arrays index cleanly here; the
string case (which in Python yields a character that the following
subscript then rejects) is collapsed into the raising arm. -/
def jIndex0 : JVal → Except String JVal
  | .ja (x :: _) => .ok x
  | .ja [] => .error "IndexError: list index out of range"
  | _ => .error "TypeError: value is not subscriptable"

/-- Python `v[k]` on a JSON object value. -/
def jField (v : JVal) (k : String) : Except String JVal :=
  match v with
  | .jo r =>
    match oget r k with
    | some x => .ok x
    | none => .error ("KeyError: " ++ k)
  | _ => .error "TypeError: value is not a dict"

/-- Require a JSON string (used where Python would raise later on a
non-string value, e.g. a path or an id used as a dict key of the live
room table). -/
def asStr : JVal → Except String String
  | .js s => .ok s
  | _ => .error "TypeError: expected str"

/-- Best-effort Python `str()` of a JSON value (container cases are
abbreviated: no claim inspects these interpolated strings). -/
def pyStr : JVal → String
  | .jnull => "None"
  | .jb true => "True"
  | .jb false => "False"
  | .ji n => toString n
  | .js s => s
  | .ja _ => "[...]"
  | .jo _ => "{...}"

namespace Lobby

/-- The value stored in `ACTIVE_SESSIONS`: `{"userId":…, "name":…}`.
Field values are JSON values exactly as read from the store record. -/
structure SessUser where
  userId : JVal
  name : JVal

/-- In-memory lobby state: `ACTIVE_SESSIONS`, the keys of `GAME_ROOMS`
(the live process handles themselves carry no information the handlers
read), and `NEXT_PORT`. -/
structure LState where
  sessions : List (String × SessUser)
  rooms : List String
  nextPort : Int

/-- A lobby response `{status, data?, errorMsg?}` (the `rooms` handler can
propagate a non-string store `errorMsg` value verbatim, hence `JVal`). -/
structure Resp where
  status : String
  rdata : Option JVal
  errorMsg : Option JVal

/-- Error response helper (`{"status":"error","errorMsg": m}`). -/
def errResp (m : String) : Resp :=
  { status := "error", rdata := none, errorMsg := some (.js m) }

/-- Success response helper (`{"status":"success","data": d}`). -/
def okResp (d : JVal) : Resp :=
  { status := "success", rdata := some d, errorMsg := none }

/-- The fields of a lobby request's `data` object that the player-lobby
handlers read.  Fields the code uses as strings (`sessionID`, `id`,
`username`, `password`) are modelled as strings; fields that are passed
through as values (`invite`, `visibility`, `role`, `gameId`) keep their
JSON value, `none` meaning the key is absent. -/
structure ReqData where
  sessionID : Option String
  id : Option String
  gameId : Option JVal
  invite : Option JVal
  visibility : Option JVal
  role : Option JVal
  username : Option String
  password : Option String

/-- External collaborators of one dispatcher iteration. -/
structure Ctx where
  db : Nat → DbReq → Obj
  fsExists : String → Bool
  fsRead : String → Option String
  b64e : String → String
  shaHex : String → String
  sessUuid : String
  now : Int

/-- Handler computation: threads the lobby state and the store-call
counter, accumulates the store requests issued, and propagates uncaught
Python exceptions as `Except.error` of their message. -/
structure LM (α : Type) where
  run : LState → Nat → Except String α × LState × Nat × List DbReq

instance : Monad LM where
  pure a := ⟨fun st n => (.ok a, st, n, [])⟩
  bind x f :=
    ⟨fun st n =>
      match x.run st n with
      | (.ok a, st1, n1, l1) =>
        match (f a).run st1 n1 with
        | (r, st2, n2, l2) => (r, st2, n2, l1 ++ l2)
      | (.error e, st1, n1, l1) => (.error e, st1, n1, l1)⟩

/-- Read the lobby state. -/
def LM.getSt : LM LState := ⟨fun st n => (.ok st, st, n, [])⟩

/-- Replace the lobby state. -/
def LM.setSt (st' : LState) : LM Unit := ⟨fun _ n => (.ok (), st', n, [])⟩

/-- Raise a Python exception. -/
def LM.raise {α : Type} (e : String) : LM α := ⟨fun st n => (.error e, st, n, [])⟩

/-- Lift an `Except` (a possibly-raising subexpression). -/
def LM.lift {α : Type} : Except String α → LM α
  | .ok a => pure a
  | .error e => LM.raise e

/-- `send_db_request`: issue one store request, receive the oracle's
response object. -/
def LM.sendDb (c : Ctx) (r : DbReq) : LM Obj :=
  ⟨fun st n => (.ok (c.db n r), st, n+1, [r])⟩

/-- A `try: ... except Exception as e: return handler(e)` block around a
handler body; state and issued requests before the exception persist. -/
def LM.tryE (x : LM Resp) (h : String → Resp) : LM Resp :=
  ⟨fun st n =>
    match x.run st n with
    | (.ok r, st1, n1, l1) => (.ok r, st1, n1, l1)
    | (.error e, st1, n1, l1) => (.ok (h e), st1, n1, l1)⟩

/-- `session_id in ACTIVE_SESSIONS` for a possibly-missing session id. -/
def sessionOk (st : LState) (sid : Option String) : Bool :=
  match sid with
  | none => false
  | some s => (st.sessions.lookup s).isSome

/-- `handle_list_games` (player lobby): no ownership filter, sanitised
fields include `description`. -/
def handle_list_games (c : Ctx) (data : ReqData) : LM Resp := do
  let st ← LM.getSt
  if !sessionOk st data.sessionID then
    pure (errResp "Invalid session or not logged in.")
  else
    LM.tryE
      (do
        let res ← LM.sendDb c ⟨"Game", "query", []⟩
        if statusSuccess res then
          let gameList := (oget res "data").getD (.ja [])
          match gameList with
          | .ja games => do
            let sanitized ← LM.lift <| games.mapM (fun g =>
              match g with
              | .jo r => .ok (JVal.jo
                  [("gameName", (oget r "gameName").getD .jnull),
                   ("owner", (oget r "owner").getD .jnull),
                   ("gameId", (oget r "id").getD .jnull),
                   ("description", (oget r "description").getD .jnull)])
              | _ => .error "AttributeError: no get")
            pure (okResp (.ja sanitized))
          | _ => LM.raise "TypeError: not iterable as dicts"
        else
          pure (errResp ("DB query failed: " ++
            pyStr ((oget res "errorMsg").getD .jnull))))
      (fun _ => errResp "Internal server error while listing games.")

/-- The body of `handle_create_room` inside its `try`, entered with the
session's user already resolved. -/
def createRoomBody (c : Ctx) (data : ReqData) (gid : JVal) (user : SessUser) :
    LM Resp := do
  let res ← LM.sendDb c ⟨"Game", "query", [("id", gid)]⟩
  if !statusSuccess res || !truthyOpt (oget res "data") then
    pure (errResp "Selected game asset not found.")
  else do
    let first ← LM.lift (jIndex0 ((oget res "data").getD .jnull))
    let folderV ← LM.lift (jField first "folderPath")
    let _ ← LM.lift (asStr folderV)
    let st ← LM.getSt
    let port := st.nextPort
    LM.setSt { st with nextPort := st.nextPort + 1 }
    let roomData : Obj :=
      [("owner", user.name),
       ("players", .ja []),
       ("spectators", .ja []),
       ("invite", (data.invite).getD .jnull),
       ("visibility", (data.visibility).getD (.js "public")),
       ("port", .ji port),
       ("gameId", gid)]
    let createRes ← LM.sendDb c ⟨"Room", "create", roomData⟩
    if !statusSuccess createRes then
      pure (errResp ("Failed to create room in DB: " ++
        pyStr ((oget createRes "errorMsg").getD .jnull)))
    else do
      let roomInfo ← LM.lift (jField (.jo createRes) "data")
      let roomIdV ← LM.lift (jField roomInfo "id")
      let roomId ← LM.lift (asStr roomIdV)
      let st2 ← LM.getSt
      LM.setSt { st2 with rooms := st2.rooms ++ [roomId] }
      pure (okResp (.jo [("id", .js roomId), ("port", .ji port)]))

/-- `handle_create_room`. -/
def handle_create_room (c : Ctx) (data : ReqData) : LM Resp := do
  let st ← LM.getSt
  match data.sessionID with
  | none => pure (errResp "Invalid session or not logged in.")
  | some sid =>
    match st.sessions.lookup sid with
    | none => pure (errResp "Invalid session or not logged in.")
    | some user =>
      let gid := (data.gameId).getD .jnull
      if !gid.truthy then
        pure (errResp "gameId is required to create a room.")
      else
        LM.tryE (createRoomBody c data gid user)
          (fun e => errResp ("Server internal error: " ++ e))

/-- `key.startswith(pre)`, computed on the character lists (so that
concrete instances reduce in the kernel). -/
def pyStartsWith (k pre : String) : Bool :=
  pre.data.isPrefixOf k.data

/-- Resolve a room-id argument against the live room keys:
`[key for key in GAME_ROOMS.keys() if key.startswith(room_id)]`.  A missing
id raises only when at least one key is tested against `None`. -/
def matchingRooms (rooms : List String) (pre : String) : List String :=
  rooms.filter (fun k => pyStartsWith k pre)

/-- `handle_delete_room(data, admin)`. -/
def handle_delete_room (c : Ctx) (data : ReqData) (admin : Bool) : LM Resp := do
  let st ← LM.getSt
  match data.id with
  | none =>
    if st.rooms.isEmpty then
      pure (errResp "Room not found.")
    else
      LM.raise "TypeError: startswith argument is None"
  | some rid =>
    let matching := matchingRooms st.rooms rid
    if matching.isEmpty then
      pure (errResp "Room not found.")
    else if 2 ≤ matching.length then
      pure (errResp "Ambiguous ID.")
    else do
      let roomId := matching.headD ""
      let user : Option SessUser := data.sessionID.bind (st.sessions.lookup ·)
      let qres ← LM.sendDb c ⟨"Room", "query", [("id", .js roomId)]⟩
      if !statusSuccess qres then
        pure (errResp "DB dead.")
      else do
        let first ← LM.lift (jIndex0 ((oget qres "data").getD .jnull))
        let owner ← LM.lift (jField first "owner")
        let ownerMatches :=
          match user with
          | none => false
          | some u => JVal.beq u.name owner
        if !admin && !ownerMatches then
          pure (errResp "Only the room owner can delete the room.")
        else do
          let dres ← LM.sendDb c ⟨"Room", "delete", [("id", .js roomId)]⟩
          if !statusSuccess dres then
            pure (errResp "DB dead.")
          else do
            let st2 ← LM.getSt
            LM.setSt { st2 with rooms := st2.rooms.erase roomId }
            pure (okResp (.jo [("deletedRoom", .js roomId)]))

/-- The tail of `handle_join_room` inside its `try` (from
`game_id = room.get("gameId")` on). -/
def joinRoomTail (c : Ctx) (roomId : String) (roleV : JVal) (room : Obj) :
    LM Resp := do
  let gameId := (oget room "gameId").getD .jnull
  let gres ← LM.sendDb c ⟨"Game", "query", [("id", gameId)]⟩
  if !statusSuccess gres then
    pure (errResp "Failed to retrieve game assets info.")
  else do
    let first ← LM.lift (jIndex0 ((oget gres "data").getD .jnull))
    let folderV ← LM.lift (jField first "folderPath")
    let folder ← LM.lift (asStr folderV)
    let path := folder ++ "/client.py"
    if !c.fsExists path then
      pure (errResp "Game client file not found on server.")
    else
      match c.fsRead path with
      | none => LM.raise "OSError: read failed"
      | some content => do
        let portV ← LM.lift (jField (.jo room) "port")
        let gameName :=
          match first with
          | .jo r => (oget r "gameName").getD (.js "game")
          | _ => .js "game"
        let ownerV :=
          match first with
          | .jo r => (oget r "owner").getD (.js "unknown")
          | _ => .js "unknown"
        pure (okResp (.jo
          [("id", .js roomId),
           ("port", portV),
           ("role", roleV),
           ("clientCode", .js (c.b64e content)),
           ("gameName", gameName),
           ("owner", ownerV)]))

/-- The post-resolution body of `handle_join_room`, entered with the
unique live room id already resolved. -/
def joinRoomWith (c : Ctx) (data : ReqData) (roomId : String) : LM Resp := do
  let st ← LM.getSt
  match data.sessionID.bind (st.sessions.lookup ·) with
  | none => pure (errResp "Invalid session.")
  | some user =>
    let roleV := (data.role).getD (.js "spectator")
    let isPlayerRole := JVal.beq roleV (.js "p1") || JVal.beq roleV (.js "p2")
    do
      let qres ← LM.sendDb c ⟨"Room", "query", [("id", .js roomId)]⟩
      if !statusSuccess qres then
        pure (errResp "DB dead.")
      else do
        let roomV ← LM.lift (jIndex0 ((oget qres "data").getD .jnull))
        let room ← LM.lift <|
          match roomV with
          | .jo r => .ok r
          | _ => .error "TypeError: room is not a dict"
        if isPlayerRole then do
          let playersV ← LM.lift (jField (.jo room) "players")
          let players ← LM.lift <|
            match playersV with
            | .ja l => .ok l
            | _ => .error "TypeError: players is not a list"
          if 2 ≤ players.length then
            pure (errResp "Room is full.")
          else do
            let taken ← LM.lift <| players.mapM (fun p =>
              match p with
              | .jo r =>
                match oget r "role" with
                | some v => .ok (JVal.beq v roleV)
                | none => .error "KeyError: role"
              | _ => .error "TypeError: player is not a dict")
            if taken.any id then
              pure (errResp ("Role '" ++ pyStr roleV ++ "' is already taken."))
            else do
              let room' := oset room "players"
                (.ja (players ++ [.jo [("name", user.name), ("role", roleV)]]))
              let _ ← LM.sendDb c ⟨"Room", "update", room'⟩
              LM.tryE (joinRoomTail c roomId roleV room')
                (fun e => errResp ("Join room failed: " ++ e))
        else do
          let spectV ← LM.lift (jField (.jo room) "spectators")
          let spect ← LM.lift <|
            match spectV with
            | .ja l => .ok l
            | _ => .error "TypeError: spectators is not a list"
          let room' := oset room "spectators" (.ja (spect ++ [user.name]))
          let _ ← LM.sendDb c ⟨"Room", "update", room'⟩
          LM.tryE (joinRoomTail c roomId roleV room')
            (fun e => errResp ("Join room failed: " ++ e))

/-- `handle_join_room`. -/
def handle_join_room (c : Ctx) (data : ReqData) : LM Resp := do
  let st ← LM.getSt
  match data.id with
  | none =>
    if st.rooms.isEmpty then
      pure (errResp "Room not found.")
    else
      LM.raise "TypeError: startswith argument is None"
  | some rid =>
    let matching := matchingRooms st.rooms rid
    if matching.isEmpty then
      pure (errResp "Room not found.")
    else if 2 ≤ matching.length then
      pure (errResp "Ambiguous ID.")
    else
      joinRoomWith c data (matching.headD "")

/-- `handle_register` parameterised by the collection name ("Player" in
the player lobby, "Developer" in the developer lobby; the two source
functions are otherwise textually identical). -/
def handle_register (c : Ctx) (collection : String) (data : ReqData) :
    LM Resp := do
  match data.username, data.password with
  | some username, some password =>
    if username == "" || password == "" then
      pure (errResp "Username and password are required.")
    else do
      let qres ← LM.sendDb c ⟨collection, "query", [("name", .js username)]⟩
      if statusSuccess qres && truthyOpt (oget qres "data") then
        pure (errResp "User already exists.")
      else do
        let cres ← LM.sendDb c
          ⟨collection, "create",
           [("name", .js username), ("passwordHash", .js (c.shaHex password))]⟩
        if statusSuccess cres then do
          let userInfo ← LM.lift (jField (.jo cres) "data")
          let idV ← LM.lift (jField userInfo "id")
          let nameV ← LM.lift (jField userInfo "name")
          pure (okResp (.jo [("userId", idV), ("name", nameV)]))
        else
          pure (errResp ("Registration failed in DB: " ++
            pyStr ((oget cres "errorMsg").getD .jnull)))
  | _, _ => pure (errResp "Username and password are required.")

/-- `handle_login` parameterised by the collection name (the player and
developer lobbies carry textually identical copies of this function,
differing only in the collection they query). -/
def handle_login (c : Ctx) (collection : String) (data : ReqData) :
    LM Resp := do
  match data.username, data.password with
  | some username, some password =>
    if username == "" || password == "" then
      pure (errResp "Username and password are required.")
    else do
      let qres ← LM.sendDb c ⟨collection, "query", [("name", .js username)]⟩
      if !statusSuccess qres then
        pure (errResp "Invalid username or password.")
      else do
        let dataV ← LM.lift (jField (.jo qres) "data")
        if !dataV.truthy then
          pure (errResp "Invalid username or password.")
        else do
          let firstV ← LM.lift (jIndex0 dataV)
          let userInfo ← LM.lift <|
            match firstV with
            | .jo r => .ok r
            | _ => .error "AttributeError: no get"
          if truthyOpt (oget userInfo "online") then
            pure (errResp "User already online.")
          else
            let hashOk :=
              match oget userInfo "passwordHash" with
              | some (.js h) => c.shaHex password == h
              | _ => false
            if !hashOk then
              pure (errResp "Invalid username or password.")
            else do
              let idV ← LM.lift (jField (.jo userInfo) "id")
              let nameV ← LM.lift (jField (.jo userInfo) "name")
              let st ← LM.getSt
              let sid := c.sessUuid
              LM.setSt { st with sessions :=
                if st.sessions.any (fun p => p.1 == sid) then
                  st.sessions.map (fun p => if p.1 == sid then (sid, ⟨idV, nameV⟩) else p)
                else st.sessions ++ [(sid, ⟨idV, nameV⟩)] }
              let _ ← LM.sendDb c
                ⟨collection, "update",
                 [("id", idV), ("lastLoginAt", .ji c.now), ("online", .jb true)]⟩
              pure (okResp (.jo
                [("sessionID", .js sid), ("userId", idV), ("name", nameV)]))
  | _, _ => pure (errResp "Username and password are required.")

/-- `handle_logout` parameterised by the collection name. -/
def handle_logout (c : Ctx) (collection : String) (sid : Option String) :
    LM Resp := do
  let st ← LM.getSt
  match sid with
  | none => pure (errResp "Invalid or expired session ID.")
  | some s =>
    match st.sessions.lookup s with
    | none => pure (errResp "Invalid or expired session ID.")
    | some user => do
      let _ ← LM.sendDb c
        ⟨collection, "update", [("id", user.userId), ("online", .jb false)]⟩
      let st2 ← LM.getSt
      LM.setSt { st2 with sessions := st2.sessions.filter (fun p => p.1 != s) }
      pure (okResp (.jo [("message", .js "Logged out successfully.")]))

/-- `handle_rooms`: three store queries, no session check; the three data
lists are concatenated private+invite, public, private+owner.  A missing
"data" value (or one that is not a list) makes the final concatenation
raise, as `None + list` does in the source. -/
def handle_rooms (c : Ctx) (data : ReqData) : LM Resp := do
  let pubRes ← LM.sendDb c ⟨"Room", "query", [("visibility", .js "public")]⟩
  if !statusSuccess pubRes then
    pure { status := "error", rdata := none,
           errorMsg := some ((oget pubRes "errorMsg").getD (.js "Database query failed.")) }
  else
    match data.invite with
    | none => LM.raise "KeyError: invite"
    | some inv => do
      let privRes ← LM.sendDb c
        ⟨"Room", "query", [("visibility", .js "private"), ("invite", inv)]⟩
      let ownRes ← LM.sendDb c
        ⟨"Room", "query", [("visibility", .js "private"), ("owner", inv)]⟩
      match oget privRes "data", oget pubRes "data", oget ownRes "data" with
      | some (.ja l1), some (.ja l2), some (.ja l3) =>
        pure (okResp (.ja (l1 ++ l2 ++ l3)))
      | _, _, _ => LM.raise "TypeError: cannot concatenate"

/-- One iteration of the player-lobby dispatcher `handle_client`: route by
action, produce the response and the connection's new
`current_session_id`. -/
def dispatch (c : Ctx) (cur : Option String) (action : String)
    (data : ReqData) : LM (Resp × Option String) := do
  if action == "register" then do
    let r ← handle_register c "Player" data
    pure (r, cur)
  else if action == "login" then do
    let r ← handle_login c "Player" data
    if r.status == "success" then do
      let sidV ← LM.lift <|
        match r.rdata with
        | some d => jField d "sessionID"
        | none => .error "KeyError: data"
      let sid ← LM.lift (asStr sidV)
      pure (r, some sid)
    else
      pure (r, cur)
  else if action == "logout" then do
    let sid := if truthyOpt (data.sessionID.map .js) then data.sessionID else cur
    let r ← handle_logout c "Player" sid
    pure (r, none)
  else if action == "create-room" then do
    let r ← handle_create_room c data
    pure (r, cur)
  else if action == "delete-room" then do
    let r ← handle_delete_room c data false
    pure (r, cur)
  else if action == "join-room" then do
    let r ← handle_join_room c data
    pure (r, cur)
  else if action == "rooms" then do
    let r ← handle_rooms c data
    pure (r, cur)
  else if action == "list-games" then do
    let r ← handle_list_games c data
    pure (r, cur)
  else
    pure (errResp "Invalid request or action.", cur)

end Lobby

namespace DevSrv

/-- An externally visible effect of a developer-lobby handler. -/
inductive Eff where
  | mkdirE (path : String)
  | writeE (path : String) (bytes : String)
  | dbE (r : DbReq)

/-- Whether an effect is a store request. -/
def Eff.isDb : Eff → Bool
  | .dbE _ => true
  | _ => false

/-- One uploaded file entry `{filename, content}` (either key may be
missing, making the handler raise mid-loop). -/
structure FileInfo where
  filename : Option String
  content : Option String

/-- The `upload-game` request fields. -/
structure UpData where
  sessionID : Option String
  gameName : Option String
  files : List FileInfo

/-- External collaborators of `handle_upload_game`: the game uuid, the
filesystem-existence oracle, base64 decoding (`none` = raising input) and
the store oracle. -/
structure Ctx where
  uuid : String
  fsExists : String → Bool
  b64d : String → Option String
  db : Nat → DbReq → Obj

/-- Developer-handler computation: store-call counter plus effect log,
with Python exceptions as `Except.error`. -/
structure DM (α : Type) where
  run : Nat → Except String α × Nat × List Eff

instance : Monad DM where
  pure a := ⟨fun n => (.ok a, n, [])⟩
  bind x f :=
    ⟨fun n =>
      match x.run n with
      | (.ok a, n1, l1) =>
        match (f a).run n1 with
        | (r, n2, l2) => (r, n2, l1 ++ l2)
      | (.error e, n1, l1) => (.error e, n1, l1)⟩

/-- Raise a Python exception. -/
def DM.raise {α : Type} (e : String) : DM α := ⟨fun n => (.error e, n, [])⟩

/-- Record a filesystem effect. -/
def DM.emit (e : Eff) : DM Unit := ⟨fun n => (.ok (), n, [e])⟩

/-- `send_db_request` from the developer lobby. -/
def DM.sendDb (c : Ctx) (r : DbReq) : DM Obj :=
  ⟨fun n => (.ok (c.db n r), n+1, [.dbE r])⟩

/-- A `try/except` wrapper returning the handler's error response. -/
def DM.tryE (x : DM Lobby.Resp) (h : String → Lobby.Resp) : DM Lobby.Resp :=
  ⟨fun n =>
    match x.run n with
    | (.ok r, n1, l1) => (.ok r, n1, l1)
    | (.error e, n1, l1) => (.ok (h e), n1, l1)⟩

/-- `os.path.basename` on forward-slash paths. -/
def basename (s : String) : String :=
  (s.splitOn "/").getLastD s

/-- The body of `handle_upload_game` inside its `try`. -/
def uploadBody (c : Ctx) (user : Lobby.SessUser) (gameName : String)
    (files : List FileInfo) : DM Lobby.Resp := do
  let folderName := gameName ++ "_" ++ (c.uuid.take 8)
  let savePath := "game/" ++ folderName
  if !c.fsExists savePath then
    DM.emit (.mkdirE savePath)
  let _ ← files.mapM (fun f => do
    match f.filename with
    | none => DM.raise "TypeError: basename argument is None"
    | some filename =>
      match f.content with
      | none => DM.raise "TypeError: b64decode argument is None"
      | some content =>
        match c.b64d content with
        | none => DM.raise "binascii.Error: invalid base64"
        | some bytes =>
          DM.emit (.writeE (savePath ++ "/" ++ basename filename) bytes))
  let _ ← DM.sendDb c
    ⟨"Game", "create",
     [("id", .js c.uuid), ("owner", user.name),
      ("gameName", .js gameName), ("folderPath", .js savePath)]⟩
  pure (Lobby.okResp (.jo
    [("gameId", .js c.uuid), ("folder", .js folderName)]))

/-- `handle_upload_game(data)` given the developer lobby's
`ACTIVE_SESSIONS` table. -/
def handle_upload_game (c : Ctx) (sessions : List (String × Lobby.SessUser))
    (data : UpData) : DM Lobby.Resp := do
  match data.sessionID.bind (sessions.lookup ·) with
  | none => pure (Lobby.errResp "Invalid session.")
  | some user =>
    let gameName := data.gameName.getD "untitled_game"
    if data.files.length < 2 then
      pure (Lobby.errResp "Two files are required.")
    else
      DM.tryE (uploadBody c user gameName data.files)
        (fun e => Lobby.errResp ("Server failed to save files: " ++ e))

end DevSrv

namespace GameSrv

/-- Dropping the blocks with negative y does not change the collision
verdict: such blocks never satisfy the `y >= 0` guard. -/
theorem collides_filter_nonneg (board : List (List Nat))
    (blocks : List (Int × Int)) :
    collides board blocks = collides board (blocks.filter (fun b => decide (0 ≤ b.2))) := by
  induction blocks with
  | nil => rfl
  | cons b rest ih =>
    unfold collides at ih ⊢
    by_cases h : (0:Int) ≤ b.2
    · rw [List.filter_cons_of_pos (by simpa using h)]
      simp only [List.any_cons]
      rw [ih]
    · rw [List.filter_cons_of_neg (by simpa using h)]
      simp only [List.any_cons]
      have hf : (decide (0 ≤ b.2) &&
          (!(in_bounds b.1 b.2) || cellAt board b.1 b.2 != 0)) = false := by
        simp [h]
      rw [hf, Bool.false_or, ih]

/-- Dropping the blocks with negative y does not change the painted board:
the paint guard requires `0 <= y`. -/
theorem place_filter_nonneg (board : List (List Nat))
    (blocks : List (Int × Int)) (kind : String) :
    place_on_board board blocks kind =
      place_on_board board (blocks.filter (fun b => decide (0 ≤ b.2))) kind := by
  induction blocks generalizing board with
  | nil => rfl
  | cons b rest ih =>
    unfold place_on_board at ih ⊢
    by_cases h : (0:Int) ≤ b.2
    · rw [List.filter_cons_of_pos (by simpa using h)]
      simp only [List.foldl_cons]
      exact ih _
    · rw [List.filter_cons_of_neg (by simpa using h)]
      have hg : (decide (0 ≤ b.2) && decide (b.2 < (BOARD_H : Int)) &&
          decide (0 ≤ b.1) && decide (b.1 < (BOARD_W : Int))) = false := by
        simp [h]
      simp only [List.foldl_cons, hg, Bool.false_eq_true, if_false]
      exact ih _

end GameSrv

/-- C3 (amended): a block with y >= 0 and x outside [0, BOARD_W) is a hard
collision, a block with y >= BOARD_H is a hard collision, blocks at y < 0
neither occupy cells for the collision check nor get painted by the lock
routine's `place_on_board`; however a block with x out of range *and*
y < 0 is not a collision (the `y >= 0` guard short-circuits the x test). -/
theorem claim3_amended (board : List (List Nat)) (blocks : List (Int × Int)) :
    (∀ b ∈ blocks, 0 ≤ b.2 → (b.1 < 0 ∨ (GameSrv.BOARD_W : Int) ≤ b.1) →
        GameSrv.collides board blocks = true) ∧
    (∀ b ∈ blocks, (GameSrv.BOARD_H : Int) ≤ b.2 →
        GameSrv.collides board blocks = true) ∧
    GameSrv.collides board blocks =
      GameSrv.collides board (blocks.filter (fun b => decide (0 ≤ b.2))) ∧
    (∀ kind, GameSrv.place_on_board board blocks kind =
      GameSrv.place_on_board board (blocks.filter (fun b => decide (0 ≤ b.2))) kind) := by
  refine ⟨?_, ?_, GameSrv.collides_filter_nonneg board blocks,
    fun kind => GameSrv.place_filter_nonneg board blocks kind⟩
  · intro b hb hy hx
    have hW : ((GameSrv.BOARD_W : Int)) = 10 := by norm_num [GameSrv.BOARD_W]
    have hH : ((GameSrv.BOARD_H : Int)) = 20 := by norm_num [GameSrv.BOARD_H]
    rw [hW] at hx
    have hib : GameSrv.in_bounds b.1 b.2 = false := by
      simp only [GameSrv.in_bounds, hW, hH]
      simp only [Bool.and_eq_false_iff, decide_eq_false_iff_not, not_le, not_lt]
      omega
    unfold GameSrv.collides
    rw [List.any_eq_true]
    exact ⟨b, hb, by simp [hib, hy]⟩
  · intro b hb hy
    have hW : ((GameSrv.BOARD_W : Int)) = 10 := by norm_num [GameSrv.BOARD_W]
    have hH : ((GameSrv.BOARD_H : Int)) = 20 := by norm_num [GameSrv.BOARD_H]
    rw [hH] at hy
    have h0 : (0:Int) ≤ b.2 := by omega
    have hib : GameSrv.in_bounds b.1 b.2 = false := by
      simp only [GameSrv.in_bounds, hW, hH]
      simp only [Bool.and_eq_false_iff, decide_eq_false_iff_not, not_le, not_lt]
      omega
    unfold GameSrv.collides
    rw [List.any_eq_true]
    exact ⟨b, hb, by simp [hib, h0]⟩

/-- C3 counterexample to the claim as stated: a block at x = -1 (outside
[0, BOARD_W)) but y = -1 is *not* reported as a collision, because the
`y >= 0` test short-circuits the x test. -/
theorem claim3_counterexample :
    GameSrv.collides (List.replicate 20 (List.replicate 10 0))
      [((-1 : Int), (-1 : Int))] = false := by decide

/-- C3 witness: the amended theorem applied at a concrete input. -/
theorem claim3_witness :
    GameSrv.collides (List.replicate 20 (List.replicate 10 0))
      [((-1 : Int), (5 : Int))] = true :=
  (claim3_amended (List.replicate 20 (List.replicate 10 0)) [((-1 : Int), (5 : Int))]).1
    ((-1 : Int), (5 : Int)) (by decide) (by decide) (Or.inl (by decide))

namespace GameSrv

/-- The eight neighbouring orientation transitions 0↔1, 1↔2, 2↔3, 3↔0. -/
def srsAdjacent : List (Nat × Nat) :=
  [(0,1),(1,0),(1,2),(2,1),(2,3),(3,2),(3,0),(0,3)]

/-- Modelled from the spec: the standard Super Rotation System five-offset
kick sequence for J/L/S/T/Z pieces at each neighbouring transition, which
the spec says the code's table MUST equal. -/
def SRS_JLSTZ : Nat × Nat → List (Int × Int)
  | (0,1) => [(0,0), (-1,0), (-1,1), (0,-2), (-1,-2)]
  | (1,0) => [(0,0), (1,0), (1,-1), (0,2), (1,2)]
  | (1,2) => [(0,0), (1,0), (1,-1), (0,2), (1,2)]
  | (2,1) => [(0,0), (-1,0), (-1,1), (0,-2), (-1,-2)]
  | (2,3) => [(0,0), (1,0), (1,1), (0,-2), (1,-2)]
  | (3,2) => [(0,0), (-1,0), (-1,-1), (0,2), (-1,2)]
  | (3,0) => [(0,0), (-1,0), (-1,-1), (0,2), (-1,2)]
  | (0,3) => [(0,0), (1,0), (1,1), (0,-2), (1,-2)]
  | _ => []

/-- Modelled from the spec: the standard Super Rotation System five-offset
kick sequence for the I piece at each neighbouring transition. -/
def SRS_I : Nat × Nat → List (Int × Int)
  | (0,1) => [(0,0), (-2,0), (1,0), (-2,-1), (1,2)]
  | (1,0) => [(0,0), (2,0), (-1,0), (2,1), (-1,-2)]
  | (1,2) => [(0,0), (-1,0), (2,0), (-1,2), (2,-1)]
  | (2,1) => [(0,0), (1,0), (-2,0), (1,-2), (-2,1)]
  | (2,3) => [(0,0), (2,0), (-1,0), (2,1), (-1,-2)]
  | (3,2) => [(0,0), (-2,0), (1,0), (-2,-1), (1,2)]
  | (3,0) => [(0,0), (1,0), (-2,0), (1,-2), (-2,1)]
  | (0,3) => [(0,0), (-1,0), (2,0), (-1,2), (2,-1)]
  | _ => []

/-- `_try_rotate`'s kick loop returns the first kick whose translated
blocks are collision-free, as a `find?` over the kick list. -/
theorem tryKicks_eq_find (ps : PlayerState) (newO : Nat) (l : List (Int × Int)) :
    tryKicks ps newO l =
      match l.find? (fun k => !collides ps.board
          (getBlocksAt ps.current newO (ps.current.x + k.1) (ps.current.y + k.2))) with
      | none => (false, ps)
      | some k =>
        (true, { ps with
                 current := { ps.current with
                              orientation := newO,
                              x := ps.current.x + k.1,
                              y := ps.current.y + k.2 },
                 lockTimer := none }) := by
  induction l with
  | nil => rfl
  | cons k rest ih =>
    unfold tryKicks
    cases hc : collides ps.board
        (getBlocksAt ps.current newO (ps.current.x + k.1) (ps.current.y + k.2)) with
    | false => simp [List.find?_cons, hc]
    | true => simpa [List.find?_cons, hc] using ih

end GameSrv

/-- C7 (confirmed): the kick tables are exactly the SRS sequences (the
JLSTZ table for J, L, S, T, Z; the I table for I; `[(0,0)]` for O and for
every non-neighbouring transition regardless of piece kind; in particular
the T piece's 0→1 sequence is (0,0),(-1,0),(-1,1),(0,-2),(-1,-2)), and
rotation tries the five offsets in order, applying the first whose
translated blocks are collision-free and failing when none is. -/
theorem claim7_confirmed :
    (∀ k ∈ (["J","L","S","T","Z"] : List String), ∀ p ∈ GameSrv.srsAdjacent,
        GameSrv.get_kicks k p.1 p.2 = GameSrv.SRS_JLSTZ p) ∧
    (∀ p ∈ GameSrv.srsAdjacent, GameSrv.get_kicks "I" p.1 p.2 = GameSrv.SRS_I p) ∧
    (∀ f t : Nat, GameSrv.get_kicks "O" f t = [(0,0)]) ∧
    (∀ f t : Fin 4, (f.1, t.1) ∉ GameSrv.srsAdjacent → ∀ kind : String,
        GameSrv.get_kicks kind f.1 t.1 = [(0,0)]) ∧
    (GameSrv.get_kicks "T" 0 1 = [(0,0), (-1,0), (-1,1), (0,-2), (-1,-2)]) ∧
    (∀ (ps : GameSrv.PlayerState) (cw : Bool),
      GameSrv.try_rotate ps cw =
        (match (GameSrv.get_kicks ps.current.kind ps.current.orientation
            ((ps.current.orientation + (if cw then 1 else 3)) % 4)).find?
            (fun k => !GameSrv.collides ps.board
              (GameSrv.getBlocksAt ps.current
                ((ps.current.orientation + (if cw then 1 else 3)) % 4)
                (ps.current.x + k.1) (ps.current.y + k.2))) with
        | none => (false, ps)
        | some k =>
          (true, { ps with
                   current := { ps.current with
                                orientation := (ps.current.orientation +
                                  (if cw then 1 else 3)) % 4,
                                x := ps.current.x + k.1,
                                y := ps.current.y + k.2 },
                   lockTimer := none }))) := by
  refine ⟨by decide, by decide, ?_, ?_, by decide, ?_⟩
  · intro f t
    rfl
  · intro f t hna kind
    fin_cases f <;> fin_cases t <;>
      first
        | exact absurd (by decide) hna
        | (unfold GameSrv.get_kicks; split_ifs <;> rfl)
  · intro ps cw
    exact GameSrv.tryKicks_eq_find ps _ _

/-- C7 witness: the table-equality part applied at the T piece's 0→1
transition. -/
theorem claim7_witness :
    GameSrv.get_kicks "T" 0 1 = GameSrv.SRS_JLSTZ (0,1) :=
  claim7_confirmed.1 "T" (by decide) (0,1) (by decide)

namespace Lobby

/-- Run equation for `pure`. -/
theorem run_pure {α : Type} (a : α) (st : LState) (n : Nat) :
    (pure a : LM α).run st n = (.ok a, st, n, []) := rfl

/-- Run equation for `bind`. -/
theorem run_bind {α β : Type} (x : LM α) (f : α → LM β) (st : LState) (n : Nat) :
    (x >>= f).run st n =
      (match x.run st n with
       | (.ok a, st1, n1, l1) =>
         (match (f a).run st1 n1 with
          | (r, st2, n2, l2) => (r, st2, n2, l1 ++ l2))
       | (.error e, st1, n1, l1) => (.error e, st1, n1, l1)) := rfl

/-- Run equation for `LM.getSt`. -/
theorem run_getSt (st : LState) (n : Nat) :
    LM.getSt.run st n = (.ok st, st, n, []) := rfl

/-- Run equation for `LM.setSt`. -/
theorem run_setSt (st' st : LState) (n : Nat) :
    (LM.setSt st').run st n = (.ok (), st', n, []) := rfl

/-- Run equation for `LM.raise`. -/
theorem run_raise {α : Type} (e : String) (st : LState) (n : Nat) :
    (LM.raise (α := α) e).run st n = (.error e, st, n, []) := rfl

/-- Run equation for `LM.sendDb`. -/
theorem run_sendDb (c : Ctx) (r : DbReq) (st : LState) (n : Nat) :
    (LM.sendDb c r).run st n = (.ok (c.db n r), st, n+1, [r]) := rfl

/-- Run equation for `LM.lift`. -/
theorem run_lift {α : Type} (x : Except String α) (st : LState) (n : Nat) :
    (LM.lift x).run st n =
      (match x with
       | .ok a => (.ok a, st, n, [])
       | .error e => (.error e, st, n, [])) := by
  cases x <;> rfl

/-- Run equation for `LM.tryE`. -/
theorem run_tryE (x : LM Resp) (h : String → Resp) (st : LState) (n : Nat) :
    (LM.tryE x h).run st n =
      (match x.run st n with
       | (.ok r, st1, n1, l1) => (.ok r, st1, n1, l1)
       | (.error e, st1, n1, l1) => (.ok (h e), st1, n1, l1)) := rfl

end Lobby

/-- C9 (confirmed): `join-room` resolves its id argument as a prefix over
the live room map: zero matching live room ids give the "Room not found."
error, two or more give "Ambiguous ID." (in both cases without touching
the store or the state), and a unique match makes the join proceed against
exactly that room (the handler continues as its post-resolution body on
that room id). -/
theorem claim9_confirmed (c : Lobby.Ctx) (st : Lobby.LState) (n : Nat)
    (data : Lobby.ReqData) (rid : String) (h : data.id = some rid) :
    ((∀ k ∈ st.rooms, ¬ Lobby.pyStartsWith k rid = true) →
      (Lobby.handle_join_room c data).run st n =
        (.ok (Lobby.errResp "Room not found."), st, n, [])) ∧
    (2 ≤ (Lobby.matchingRooms st.rooms rid).length →
      (Lobby.handle_join_room c data).run st n =
        (.ok (Lobby.errResp "Ambiguous ID."), st, n, [])) ∧
    (∀ k, Lobby.matchingRooms st.rooms rid = [k] →
      k ∈ st.rooms ∧ Lobby.pyStartsWith k rid = true ∧
      (Lobby.handle_join_room c data).run st n =
        (Lobby.joinRoomWith c data k).run st n) := by
  refine ⟨?_, ?_, ?_⟩
  · intro hnone
    have hm : Lobby.matchingRooms st.rooms rid = [] := by
      unfold Lobby.matchingRooms
      rw [List.filter_eq_nil_iff]
      intro k hk
      simpa using hnone k hk
    unfold Lobby.handle_join_room
    rw [h]
    simp [Lobby.run_bind, Lobby.run_getSt, hm, Lobby.run_pure]
  · intro htwo
    have hm : (Lobby.matchingRooms st.rooms rid).isEmpty = false := by
      cases hmr : Lobby.matchingRooms st.rooms rid with
      | nil => rw [hmr] at htwo; simp at htwo
      | cons a l => simp
    unfold Lobby.handle_join_room
    rw [h]
    simp only [Lobby.run_bind, Lobby.run_getSt, hm, Bool.false_eq_true, if_false,
      htwo, if_true, Lobby.run_pure]
    simp [htwo]
  · intro k hk
    have hmemf : k ∈ Lobby.matchingRooms st.rooms rid := by
      rw [hk]; exact List.mem_singleton_self k
    have hmem : k ∈ st.rooms := List.mem_of_mem_filter hmemf
    have hpre : Lobby.pyStartsWith k rid = true := by
      have := List.of_mem_filter hmemf
      simpa using this
    refine ⟨hmem, hpre, ?_⟩
    unfold Lobby.handle_join_room
    rw [h]
    simp [Lobby.run_bind, Lobby.run_getSt, hk, Lobby.run_pure]

/-- C9 witness: two live rooms sharing the 4-character prefix "abcd" make
`join-room` with that prefix answer "Ambiguous ID.". -/
theorem claim9_witness :
    (Lobby.handle_join_room
      { db := fun _ _ => [], fsExists := fun _ => false, fsRead := fun _ => none,
        b64e := fun s => s, shaHex := fun s => s, sessUuid := "u", now := 0 }
      { sessionID := none, id := some "abcd", gameId := none, invite := none,
        visibility := none, role := none, username := none, password := none }).run
      { sessions := [], rooms := ["abcd1234", "abcd9999"], nextPort := 9000 } 0 =
        (.ok (Lobby.errResp "Ambiguous ID."),
         { sessions := [], rooms := ["abcd1234", "abcd9999"], nextPort := 9000 }, 0, []) :=
  (claim9_confirmed _ _ 0 _ "abcd" rfl).2.1 (by decide)

namespace GameSrv

/-- Replace-at-m after consing the old element at m is a permutation of
consing the new value: the kernel step of the swap. -/
theorem cons_set_perm {α : Type} (t : List α) (m : Nat) (b x : α)
    (h : t[m]? = some b) : (b :: t.set m x).Perm (x :: t) := by
  induction t generalizing m with
  | nil => simp at h
  | cons y s ih =>
    cases m with
    | zero =>
      simp at h
      subst h
      exact List.Perm.swap x y s
    | succ k =>
      simp at h
      have hih := ih k h
      have h1 : (b :: (y :: s).set (k+1) x) = b :: y :: s.set k x := by simp
      rw [h1]
      exact ((List.Perm.swap y b (s.set k x)).trans (hih.cons y)).trans
        (List.Perm.swap x y s)

/-- A double `set` that exchanges the elements at two positions is a
permutation of the original list. -/
theorem set_set_perm {α : Type} :
    ∀ (l : List α) (i j : Nat) (a b : α), l[i]? = some a →
      l[j]? = some b → ((l.set i b).set j a).Perm l := by
  intro l
  induction l with
  | nil => intro i j a b hi _; simp at hi
  | cons y s ih =>
    intro i j a b hi hj
    cases i with
    | zero =>
      cases j with
      | zero =>
        simp at hi hj
        subst hi; subst hj
        simp
      | succ m =>
        simp at hi hj
        have h1 : (((y :: s).set 0 b).set (m+1) a) = b :: s.set m a := by simp
        rw [h1, ← hi]
        exact cons_set_perm s m b y hj
    | succ n =>
      cases j with
      | zero =>
        simp at hi hj
        have h1 : (((y :: s).set (n+1) b).set 0 a) = a :: s.set n b := by simp
        rw [h1, ← hj]
        exact cons_set_perm s n a y hi
      | succ m =>
        simp at hi hj
        have := ih n m a b hi hj
        simpa using this.cons y

end GameSrv

namespace GameSrv

/-- `swapL` permutes its list. -/
theorem swapL_perm (l : List String) (i j : Nat) : (swapL l i j).Perm l := by
  unfold swapL
  cases hi : l.get? i with
  | none => exact List.Perm.refl l
  | some a =>
    cases hj : l.get? j with
    | none => exact List.Perm.refl l
    | some b =>
      rw [List.get?_eq_getElem?] at hi hj
      exact set_set_perm l i j a b hi hj

/-- Every prefix of the Fisher-Yates loop permutes the bag. -/
theorem shuffleSteps_perm (rng : Nat → Nat → Nat) :
    ∀ (i ctr : Nat) (bag : List String), (shuffleSteps rng ctr bag i).Perm bag := by
  intro i
  induction i with
  | zero => intro ctr bag; exact List.Perm.refl bag
  | succ k ih =>
    intro ctr bag
    exact (ih (ctr+1) (swapL bag (k+1) (rng ctr (k+1)))).trans
      (swapL_perm bag (k+1) (rng ctr (k+1)))

/-- The shuffled bag produced by the refill starting at rng counter c. -/
def bagAt (rng : Nat → Nat → Nat) (c : Nat) : List String :=
  shuffleSteps rng c baseBag 6

/-- A refill on an empty queue yields exactly one shuffled base bag. -/
theorem bagRefill_empty (rng : Nat → Nat → Nat) (c : Nat) :
    bagRefill ⟨rng, c, []⟩ = ⟨rng, c + 6, bagAt rng c⟩ := rfl

/-- The shuffled bag has the seven kinds' length. -/
theorem bagAt_length (rng : Nat → Nat → Nat) (c : Nat) :
    (bagAt rng c).length = 7 := by
  rw [bagAt, (shuffleSteps_perm rng 6 c baseBag).length_eq]
  rfl

/-- Taking zero pieces yields the empty list. -/
theorem bagTake_zero (s : BagState) : bagTake s 0 = [] := rfl

/-- Draining a queue of length L via `next` returns exactly that queue and
leaves the generator empty with the same rng counter. -/
theorem bagTake_drain (rng : Nat → Nat → Nat) :
    ∀ (q : List String) (c r : Nat),
      bagTake ⟨rng, c, q⟩ (q.length + r) = q ++ bagTake ⟨rng, c, []⟩ r := by
  intro q
  induction q with
  | nil =>
    intro c r
    rw [List.length_nil, Nat.zero_add, List.nil_append]
  | cons k rest ih =>
    intro c r
    have hlen : (k :: rest).length + r = (rest.length + r) + 1 := by
      simp [List.length_cons]; omega
    rw [hlen]
    show (k :: bagTake ⟨rng, c, rest⟩ (rest.length + r)) = _
    rw [ih c r]
    rfl

/-- Seven `next` calls from an empty queue deal exactly one shuffled bag
and advance the rng counter by six. -/
theorem bagTake_empty_seven (rng : Nat → Nat → Nat) (c r : Nat) :
    bagTake ⟨rng, c, []⟩ (7 + r) = bagAt rng c ++ bagTake ⟨rng, c + 6, []⟩ r := by
  have h7 := bagAt_length rng c
  cases hb : bagAt rng c with
  | nil => rw [hb] at h7; simp at h7
  | cons k rest =>
    have hrest : rest.length = 6 := by
      rw [hb] at h7; simpa using h7
    have harith : 7 + r = (6 + r) + 1 := by omega
    rw [harith]
    show (bagNext ⟨rng, c, []⟩).1 :: bagTake (bagNext ⟨rng, c, []⟩).2 (6 + r) = _
    have hnext : bagNext ⟨rng, c, []⟩ = (k, ⟨rng, c + 6, rest⟩) := by
      unfold bagNext
      rw [show (⟨rng, c, []⟩ : BagState).queue.isEmpty = true from rfl]
      simp only [if_true]
      rw [bagRefill_empty, hb]
    rw [hnext]
    have hdrain := bagTake_drain rng rest (c + 6) r
    rw [hrest] at hdrain
    rw [hdrain]
    rfl

/-- The n-th 7-piece window of the stream from an empty generator is the
n-th shuffled bag. -/
theorem bagTake_window (rng : Nat → Nat → Nat) :
    ∀ (n c : Nat),
      (bagTake ⟨rng, c, []⟩ (7*n + 7)).drop (7*n) = bagAt rng (c + 6*n) := by
  intro n
  induction n with
  | zero =>
    intro c
    have h0 : (7*0 + 7 : Nat) = 7 + 0 := by ring
    rw [h0, bagTake_empty_seven, bagTake_zero, List.append_nil]
    rw [show (7*0 : Nat) = 0 from rfl, List.drop_zero]
    congr 1
  | succ m ih =>
    intro c
    have h1 : 7*(m+1) + 7 = 7 + (7*m + 7) := by ring
    have h2 : 7*(m+1) = (bagAt rng c).length + 7*m := by
      rw [bagAt_length]; ring
    rw [h1, bagTake_empty_seven, h2, List.drop_append, ih (c + 6)]
    congr 1
    ring

/-- The stream from the freshly constructed generator coincides with the
stream from an empty generator at counter 0 (the first `next` refills). -/
theorem bagTake_init (rng : Nat → Nat → Nat) (m : Nat) :
    bagTake (bagInit rng) m = bagTake ⟨rng, 0, []⟩ m := by
  cases m with
  | zero => rfl
  | succ k =>
    have hne : (bagInit rng).queue.isEmpty = false := by
      show (bagAt rng 0).isEmpty = false
      cases hb : bagAt rng 0 with
      | nil => have h7 := bagAt_length rng 0; rw [hb] at h7; simp at h7
      | cons a l => rfl
    have hnext : bagNext (bagInit rng) = bagNext ⟨rng, 0, []⟩ := by
      unfold bagNext
      rw [hne]
      rw [show (⟨rng, 0, []⟩ : BagState).queue.isEmpty = true from rfl]
      simp only [if_false, if_true]
      rfl
    show (bagNext (bagInit rng)).1 :: bagTake (bagNext (bagInit rng)).2 k = _
    rw [hnext]
    rfl

end GameSrv

/-- C8 (confirmed): for every rng oracle (hence every seed) and every n,
the pieces at positions 7n..7n+6 of the stream of successive `next` calls
on one `BagGenerator` are a permutation of the seven kinds — each kind
appears exactly once per window — and `next` refills (six further rng
draws, a seven-piece bag) exactly when its queue is empty. -/
theorem claim8_confirmed (rng : Nat → Nat → Nat) (n : Nat) :
    ((GameSrv.bagTake (GameSrv.bagInit rng) (7*n + 7)).drop (7*n)).Perm
        GameSrv.baseBag ∧
    (∀ k ∈ GameSrv.baseBag,
      ((GameSrv.bagTake (GameSrv.bagInit rng) (7*n + 7)).drop (7*n)).count k = 1) ∧
    (∀ s : GameSrv.BagState,
      (GameSrv.bagNext s).2.ctr = (if s.queue.isEmpty then s.ctr + 6 else s.ctr) ∧
      (GameSrv.bagNext s).2.queue.length =
        (if s.queue.isEmpty then 7 else s.queue.length) - 1) := by
  have hwin : (GameSrv.bagTake (GameSrv.bagInit rng) (7*n + 7)).drop (7*n) =
      GameSrv.bagAt rng (6*n) := by
    rw [GameSrv.bagTake_init, GameSrv.bagTake_window]
    congr 1
    omega
  have hperm : ((GameSrv.bagTake (GameSrv.bagInit rng) (7*n + 7)).drop (7*n)).Perm
      GameSrv.baseBag := by
    rw [hwin]
    exact GameSrv.shuffleSteps_perm rng 6 (6*n) GameSrv.baseBag
  refine ⟨hperm, ?_, ?_⟩
  · intro k hk
    rw [hperm.count_eq]
    fin_cases hk <;> decide
  · intro s
    obtain ⟨r, c, q⟩ := s
    cases q with
    | nil =>
      have h7 := GameSrv.bagAt_length r c
      have hstep : GameSrv.bagNext ⟨r, c, []⟩ =
          ((GameSrv.bagAt r c).headD "",
           ⟨r, c + 6, (GameSrv.bagAt r c).tail⟩) := by
        unfold GameSrv.bagNext
        rw [show ((⟨r, c, []⟩ : GameSrv.BagState).queue.isEmpty) = true from rfl]
        simp only [if_true]
        rw [GameSrv.bagRefill_empty]
        cases hb : GameSrv.bagAt r c with
        | nil => rw [hb] at h7; simp at h7
        | cons a l => rfl
      rw [hstep]
      refine ⟨rfl, ?_⟩
      show (GameSrv.bagAt r c).tail.length = 7 - 1
      rw [List.length_tail, h7]
    | cons x xs =>
      refine ⟨rfl, ?_⟩
      show xs.length = (x :: xs).length - 1
      simp

/-- C8 witness: the count part applied to the kind "I" in the first window
of the all-zero rng oracle. -/
theorem claim8_witness :
    ((GameSrv.bagTake (GameSrv.bagInit (fun _ _ => 0)) (7*0 + 7)).drop (7*0)).count "I" = 1 :=
  (claim8_confirmed (fun _ _ => 0) 0).2.1 "I" (by decide)

namespace GameSrv

/-- If the queue plus the fuel reach seven, the fill loop ends with at
least seven queued pieces. -/
theorem fillNextGo_length :
    ∀ (f : Nat) (b : BagState) (q : List String), 7 ≤ q.length + f →
      7 ≤ (fillNextGo b q f).2.length := by
  intro f
  induction f with
  | zero =>
    intro b q h
    simpa using h
  | succ m ih =>
    intro b q h
    unfold fillNextGo
    by_cases hlt : q.length < 7
    · simp only [hlt, if_true]
      apply ih
      simp
      omega
    · simp only [hlt, if_false]
      omega

/-- `fill_next` leaves at least seven pieces in the queue. -/
theorem fillNext_length (b : BagState) (q : List String) :
    7 ≤ (fillNext b q).2.length := by
  unfold fillNext
  apply fillNextGo_length
  omega

/-- `spawn_new` in closed form: pop the head of the filled queue into a
fresh current piece at the spawn position, clearing `hold_used`. -/
theorem spawnNew_eq (ps : PlayerState) :
    spawnNew ps = { ps with
      bag := (fillNext ps.bag ps.nextQueue).1,
      nextQueue := (fillNext ps.bag ps.nextQueue).2.tail,
      current := ⟨(fillNext ps.bag ps.nextQueue).2.headD "", SPAWN_X, SPAWN_Y, 0⟩,
      holdUsed := false } := by
  unfold spawnNew
  have h := fillNext_length ps.bag ps.nextQueue
  cases hq : (fillNext ps.bag ps.nextQueue).2 with
  | nil => rw [hq] at h; simp at h
  | cons k rest => simp [hq]

end GameSrv

/-- C4 (amended): Hold is rejected (and the state untouched) when
`hold_used` is set; with an empty hold slot the current kind is stored and
a new piece is spawned from the queue at the spawn position with
orientation 0, but *no* top-out check is applied there (`alive` is
unchanged even if the spawn blocks collide); in the swap case the
swapped-in kind spawns at the spawn position with orientation 0 and the
top-out check *is* applied; in both non-rejected cases `hold_used` is set
afterwards. -/
theorem claim4_amended (ps : GameSrv.PlayerState) :
    (ps.holdUsed = true → GameSrv.do_hold ps = (false, ps)) ∧
    (ps.holdUsed = false → ps.hold = none →
      GameSrv.do_hold ps =
        (true, { ps with
                 hold := some ps.current.kind,
                 bag := (GameSrv.fillNext ps.bag ps.nextQueue).1,
                 nextQueue := (GameSrv.fillNext ps.bag ps.nextQueue).2.tail,
                 current := ⟨(GameSrv.fillNext ps.bag ps.nextQueue).2.headD "",
                             GameSrv.SPAWN_X, GameSrv.SPAWN_Y, 0⟩,
                 holdUsed := true }) ∧
      (GameSrv.do_hold ps).2.alive = ps.alive) ∧
    (∀ tmp, ps.holdUsed = false → ps.hold = some tmp →
      GameSrv.do_hold ps =
        (true, { ps with
                 hold := some ps.current.kind,
                 current := ⟨tmp, GameSrv.SPAWN_X, GameSrv.SPAWN_Y, 0⟩,
                 alive := if GameSrv.collides ps.board
                     (GameSrv.getBlocks ⟨tmp, GameSrv.SPAWN_X, GameSrv.SPAWN_Y, 0⟩)
                   then false else ps.alive,
                 holdUsed := true })) := by
  refine ⟨?_, ?_, ?_⟩
  · intro h
    unfold GameSrv.do_hold
    rw [h]
    rfl
  · intro hu hh
    unfold GameSrv.do_hold
    rw [hu, hh]
    simp only [Bool.false_eq_true, if_false]
    rw [GameSrv.spawnNew_eq]
    constructor
    · rfl
    · rfl
  · intro tmp hu hh
    unfold GameSrv.do_hold
    rw [hu, hh]
    simp only [Bool.false_eq_true, if_false]
    by_cases hc : GameSrv.collides ps.board
        (GameSrv.getBlocks ⟨tmp, GameSrv.SPAWN_X, GameSrv.SPAWN_Y, 0⟩)
    · simp [hc]
    · simp [hc]

/-- The player state used to exhibit C4's missing top-out check: the top
row is full, the hold slot empty, and an O piece heads the queue. -/
def c4Player : GameSrv.PlayerState :=
  { role := "p1", name := "a",
    board := List.replicate 10 1 :: List.replicate 19 (List.replicate 10 0),
    score := 0, lines := 0, alive := true,
    bag := ⟨fun _ _ => 0, 0, []⟩,
    nextQueue := ["O", "I", "O", "T", "S", "Z", "J"],
    current := ⟨"T", 4, 10, 0⟩,
    hold := none, holdUsed := false, lockTimer := none }

/-- C4 counterexample to the claim as stated: after an empty-slot Hold the
respawned piece's spawn blocks collide with the board, yet `alive` stays
true — the top-out check is not applied in this branch. -/
theorem claim4_counterexample :
    (GameSrv.do_hold c4Player).2.alive = true ∧
    GameSrv.collides (GameSrv.do_hold c4Player).2.board
      (GameSrv.getBlocks (GameSrv.do_hold c4Player).2.current) = true := by
  constructor
  · rfl
  · rfl

/-- C4 witness: the rejection part of the amended theorem applied to a
state with `hold_used` set. -/
theorem claim4_witness :
    GameSrv.do_hold { c4Player with holdUsed := true } =
      (false, { c4Player with holdUsed := true }) :=
  (claim4_amended { c4Player with holdUsed := true }).1 rfl

namespace GameSrv

/-- `getD` after `set` at the same in-range index. -/
theorem getD_set_self {α : Type} (l : List α) (i : Nat) (a d : α)
    (h : i < l.length) : (l.set i a).getD i d = a := by
  simp [List.getD, List.getElem?_set, h]

/-- `getD` after `set` at a different index. -/
theorem getD_set_ne {α : Type} (l : List α) (i j : Nat) (a d : α)
    (h : i ≠ j) : (l.set i a).getD j d = l.getD j d := by
  simp [List.getD, List.getElem?_set, h]

/-- Well-formed board: BOARD_H rows of BOARD_W cells. -/
def boardWF (board : List (List Nat)) : Prop :=
  board.length = BOARD_H ∧ ∀ row ∈ board, row.length = BOARD_W

/-- Writing one cell preserves well-formedness. -/
theorem setCell_wf (board : List (List Nat)) (r c v : Nat)
    (h : boardWF board) : boardWF (setCell board r c v) := by
  by_cases hr : r < board.length
  · obtain ⟨hlen, hrow⟩ := h
    refine ⟨by simpa [setCell] using hlen, ?_⟩
    intro row hmem
    unfold setCell at hmem
    rcases List.mem_or_eq_of_mem_set hmem with hm | hm
    · exact hrow row hm
    · subst hm
      rw [List.length_set]
      apply hrow
      rw [List.getD_eq_getElem _ _ hr]
      exact List.getElem_mem hr
  · unfold setCell
    rw [List.set_eq_of_length_le (by omega)]
    exact h

/-- Painting preserves well-formedness. -/
theorem place_wf (blocks : List (Int × Int)) :
    ∀ (board : List (List Nat)), boardWF board →
      ∀ kind, boardWF (place_on_board board blocks kind) := by
  induction blocks with
  | nil => intro board h kind; exact h
  | cons b rest ih =>
    intro board h kind
    unfold place_on_board
    rw [List.foldl_cons]
    by_cases hg : (decide (0 ≤ b.2) && decide (b.2 < (BOARD_H : Int)) &&
        decide (0 ≤ b.1) && decide (b.1 < (BOARD_W : Int))) = true
    · rw [if_pos hg]
      exact ih _ (setCell_wf board _ _ _ h) kind
    · rw [if_neg hg]
      exact ih _ h kind

/-- Cell-level characterisation of the paint step: inside the board, a
painted cell holds the piece's colour code exactly at block positions and
is otherwise unchanged. -/
theorem cellAt_place (blocks : List (Int × Int)) :
    ∀ (board : List (List Nat)), boardWF board → ∀ (kind : String) (x y : Int),
      0 ≤ x → x < (BOARD_W : Int) → 0 ≤ y → y < (BOARD_H : Int) →
      cellAt (place_on_board board blocks kind) x y =
        (if (x, y) ∈ blocks then colorCode kind else cellAt board x y) := by
  have hW : ((BOARD_W : Int)) = 10 := by norm_num [BOARD_W]
  have hH : ((BOARD_H : Int)) = 20 := by norm_num [BOARD_H]
  induction blocks with
  | nil =>
    intro board _ kind x y _ _ _ _
    simp [place_on_board]
  | cons b rest ih =>
    intro board hwf kind x y hx0 hxW hy0 hyH
    unfold place_on_board
    rw [List.foldl_cons]
    set board' : List (List Nat) :=
      (if (decide (0 ≤ b.2) && decide (b.2 < (BOARD_H : Int)) &&
          decide (0 ≤ b.1) && decide (b.1 < (BOARD_W : Int))) = true then
        setCell board b.2.toNat b.1.toNat (colorCode kind)
      else board) with hb'
    have hwf' : boardWF board' := by
      rw [hb']
      split
      · exact setCell_wf board _ _ _ hwf
      · exact hwf
    have hrec := ih board' hwf' kind x y hx0 hxW hy0 hyH
    show cellAt (place_on_board board' rest kind) x y = _
    rw [hrec]
    by_cases hmem : (x, y) ∈ rest
    · rw [if_pos hmem, if_pos (List.mem_cons_of_mem b hmem)]
    · rw [if_neg hmem]
      by_cases hxy : (x, y) = b
      · rw [if_pos (by rw [hxy]; exact List.mem_cons_self b rest)]
        have hbx : b.1 = x := by rw [← hxy]
        have hby : b.2 = y := by rw [← hxy]
        have hg : (decide (0 ≤ b.2) && decide (b.2 < (BOARD_H : Int)) &&
            decide (0 ≤ b.1) && decide (b.1 < (BOARD_W : Int))) = true := by
          rw [hbx, hby]
          simp only [Bool.and_eq_true, decide_eq_true_eq]
          exact ⟨⟨⟨hy0, hyH⟩, hx0⟩, hxW⟩
        rw [hb', if_pos hg, hbx, hby]
        unfold cellAt setCell
        have hylt : y.toNat < board.length := by
          rw [hwf.1, BOARD_H]
          omega
        rw [getD_set_self _ _ _ _ hylt]
        have hxlt : x.toNat < (board.getD y.toNat []).length := by
          have : board.getD y.toNat [] ∈ board := by
            rw [List.getD_eq_getElem _ _ hylt]
            exact List.getElem_mem hylt
          rw [hwf.2 _ this, BOARD_W]
          omega
        rw [getD_set_self _ _ _ _ hxlt]
      · rw [if_neg (by
          intro hc
          rcases List.mem_cons.mp hc with hc | hc
          · exact hxy hc
          · exact hmem hc)]
        rw [hb']
        split
        · next hg =>
          simp only [Bool.and_eq_true, decide_eq_true_eq] at hg
          obtain ⟨⟨⟨hb2, hb2H⟩, hb1⟩, hb1W⟩ := hg
          have hne : b.2.toNat ≠ y.toNat ∨ b.1.toNat ≠ x.toNat := by
            by_contra hcon
            push_neg at hcon
            apply hxy
            have : b.1 = x := by omega
            have : b.2 = y := by omega
            ext <;> omega
          unfold cellAt setCell
          rcases hne with hne | hne
          · rw [getD_set_ne _ _ _ _ _ hne]
          · by_cases hrow : b.2.toNat = y.toNat
            · rw [hrow]
              have hylt : y.toNat < board.length := by
                rw [hwf.1, BOARD_H]; omega
              rw [getD_set_self _ _ _ _ hylt, ← hrow,
                show b.2.toNat = y.toNat from hrow]
              rw [getD_set_ne _ _ _ _ _ hne]
            · rw [getD_set_ne _ _ _ _ _ hrow]
        · rfl

end GameSrv

namespace GameSrv

/-- `score_for_clear` of zero cleared lines is zero, so the guarded score
update equals the unguarded one. -/
theorem score_for_clear_zero : score_for_clear 0 = 0 := rfl

/-- `_lock_piece` in closed form. -/
theorem lock_piece_eq (ps : PlayerState) (hard : Bool) :
    lock_piece ps hard =
      { ps with
        board := (clear_lines (place_on_board ps.board (getBlocks ps.current)
          ps.current.kind)).1,
        lines := ps.lines + (clear_lines (place_on_board ps.board
          (getBlocks ps.current) ps.current.kind)).2,
        score := ps.score + score_for_clear ((clear_lines (place_on_board ps.board
          (getBlocks ps.current) ps.current.kind)).2) + (if hard then 10 else 0),
        bag := (fillNext ps.bag ps.nextQueue).1,
        nextQueue := (fillNext ps.bag ps.nextQueue).2.tail,
        current := ⟨(fillNext ps.bag ps.nextQueue).2.headD "", SPAWN_X, SPAWN_Y, 0⟩,
        holdUsed := false,
        alive := if collides
            (clear_lines (place_on_board ps.board (getBlocks ps.current)
              ps.current.kind)).1
            (getBlocks ⟨(fillNext ps.bag ps.nextQueue).2.headD "",
              SPAWN_X, SPAWN_Y, 0⟩) then false else ps.alive,
        lockTimer := none } := by
  unfold lock_piece
  simp only [ne_eq, ite_not]
  simp [spawnNew_eq, score_for_clear_zero]
  by_cases h2 : collides
      (clear_lines (place_on_board ps.board (getBlocks ps.current) ps.current.kind)).1
      (getBlocks ⟨(fillNext ps.bag ps.nextQueue).2.head?.getD "", SPAWN_X, SPAWN_Y, 0⟩) = true
  all_goals by_cases h1 : (clear_lines (place_on_board ps.board (getBlocks ps.current)
      ps.current.kind)).2 = 0
  all_goals simp_all [score_for_clear_zero]
  all_goals (cases hard <;> simp_all)

end GameSrv

/-- C6 (amended): on every lock the piece's in-board cells are painted
with its colour code, the full rows are cleared (that many empty rows are
prepended), the score grows by the 100/300/500/800 table value (lines×200
for counts above four, 0 for none) *plus a flat 10 when the lock came from
a hard drop*, the cleared count is added to `lines`, the next piece spawns
at (SPAWN_X, SPAWN_Y) = (4,-1) with orientation 0, `alive` becomes false
exactly when the spawn position already collides (and is otherwise
unchanged), and `lock_timer` and `hold_used` are cleared. -/
theorem claim6_amended (ps : GameSrv.PlayerState) (hard : Bool)
    (painted : List (List Nat)) (cleared : Nat)
    (hwf : GameSrv.boardWF ps.board)
    (hp : painted = GameSrv.place_on_board ps.board (GameSrv.getBlocks ps.current)
      ps.current.kind)
    (hc : cleared = (painted.filter GameSrv.rowFull).length) :
    (∀ (x y : Int), 0 ≤ x → x < (GameSrv.BOARD_W : Int) → 0 ≤ y →
      y < (GameSrv.BOARD_H : Int) →
      GameSrv.cellAt painted x y =
        (if (x, y) ∈ GameSrv.getBlocks ps.current then
          GameSrv.colorCode ps.current.kind
         else GameSrv.cellAt ps.board x y)) ∧
    (GameSrv.lock_piece ps hard).board =
      List.replicate cleared (List.replicate GameSrv.BOARD_W 0) ++
        painted.filter (fun row => !(GameSrv.rowFull row)) ∧
    (GameSrv.lock_piece ps hard).score =
      ps.score + GameSrv.score_for_clear cleared + (if hard then 10 else 0) ∧
    (GameSrv.lock_piece ps hard).lines = ps.lines + cleared ∧
    (GameSrv.lock_piece ps hard).current =
      ⟨(GameSrv.fillNext ps.bag ps.nextQueue).2.headD "", GameSrv.SPAWN_X,
        GameSrv.SPAWN_Y, 0⟩ ∧
    (GameSrv.lock_piece ps hard).alive =
      (if GameSrv.collides (GameSrv.lock_piece ps hard).board
          (GameSrv.getBlocks (GameSrv.lock_piece ps hard).current)
        then false else ps.alive) ∧
    (GameSrv.lock_piece ps hard).lockTimer = none ∧
    (GameSrv.lock_piece ps hard).holdUsed = false ∧
    GameSrv.score_for_clear 0 = 0 ∧ GameSrv.score_for_clear 1 = 100 ∧
    GameSrv.score_for_clear 2 = 300 ∧ GameSrv.score_for_clear 3 = 500 ∧
    GameSrv.score_for_clear 4 = 800 ∧
    (∀ m : Nat, 5 ≤ m → GameSrv.score_for_clear m = m * 200) := by
  subst hp
  subst hc
  refine ⟨GameSrv.cellAt_place (GameSrv.getBlocks ps.current) ps.board hwf
      ps.current.kind, ?_, ?_, ?_, ?_, ?_, ?_, ?_, rfl, rfl, rfl, rfl, rfl, ?_⟩
  · simp [GameSrv.lock_piece_eq, GameSrv.clear_lines]
  · simp [GameSrv.lock_piece_eq, GameSrv.clear_lines]
  · simp [GameSrv.lock_piece_eq, GameSrv.clear_lines]
  · simp [GameSrv.lock_piece_eq, GameSrv.clear_lines]
  · simp [GameSrv.lock_piece_eq, GameSrv.clear_lines]
  · simp [GameSrv.lock_piece_eq, GameSrv.clear_lines]
  · simp [GameSrv.lock_piece_eq, GameSrv.clear_lines]
  · intro m hm
    have h0 : m ≠ 0 := by omega
    have h1 : m ≠ 1 := by omega
    have h2 : m ≠ 2 := by omega
    have h3 : m ≠ 3 := by omega
    have h4 : m ≠ 4 := by omega
    simp [GameSrv.score_for_clear, h0, h1, h2, h3, h4]

/-- A fully empty 20x10 board is well formed. -/
theorem boardWF_empty :
    GameSrv.boardWF (List.replicate 20 (List.replicate 10 0)) :=
  ⟨rfl, fun _ hrow => by rw [List.eq_of_mem_replicate hrow]; rfl⟩

/-- The player state used for C6: an empty board with a T piece resting on
the floor, about to be hard-dropped in place. -/
def c6Player : GameSrv.PlayerState :=
  { role := "p1", name := "a",
    board := List.replicate 20 (List.replicate 10 0),
    score := 0, lines := 0, alive := true,
    bag := ⟨fun _ _ => 0, 0, []⟩,
    nextQueue := ["O", "I", "O", "T", "S", "Z", "J"],
    current := ⟨"T", 4, 18, 0⟩,
    hold := none, holdUsed := false, lockTimer := none }

/-- C6 counterexample to the claim as stated: a hard-drop lock with zero
cleared lines increases the score by 10, not by the table value 0. -/
theorem claim6_counterexample :
    (GameSrv.lock_piece c6Player true).score ≠
      c6Player.score + GameSrv.score_for_clear
        (((GameSrv.place_on_board c6Player.board (GameSrv.getBlocks c6Player.current)
            c6Player.current.kind).filter GameSrv.rowFull).length) := by
  decide

/-- C6 witness: the amended theorem applied to the concrete state (a
non-hard lock there scores the table value). -/
theorem claim6_witness :
    (GameSrv.lock_piece c6Player false).score =
      c6Player.score + GameSrv.score_for_clear
        (((GameSrv.place_on_board c6Player.board (GameSrv.getBlocks c6Player.current)
            c6Player.current.kind).filter GameSrv.rowFull).length) +
        (if false then 10 else 0) :=
  (claim6_amended c6Player false _ _ boardWF_empty rfl rfl).2.2.1

mutual

/-- `JVal.beq` is reflexive. -/
theorem JVal.beq_refl : ∀ v : JVal, JVal.beq v v = true
  | .jnull => rfl
  | .jb b => by simp [JVal.beq]
  | .ji n => by simp [JVal.beq]
  | .js s => by simp [JVal.beq]
  | .ja l => by simp [JVal.beq, JVal.beqArr_refl l]
  | .jo l => by simp [JVal.beq, JVal.beqObj_refl l]

/-- `JVal.beqArr` is reflexive. -/
theorem JVal.beqArr_refl : ∀ l : List JVal, JVal.beqArr l l = true
  | [] => rfl
  | a :: as => by simp [JVal.beqArr, JVal.beq_refl a, JVal.beqArr_refl as]

/-- `JVal.beqObj` is reflexive. -/
theorem JVal.beqObj_refl : ∀ l : Obj, JVal.beqObj l l = true
  | [] => rfl
  | a :: as => by simp [JVal.beqObj, JVal.beq_refl a.2, JVal.beqObj_refl as]

end

/-- The replace-in-place pass of `oset` finds the new value at the
assigned key. -/
theorem find_map_oset_self (t : Obj) (k : String) (v : JVal)
    (hany : t.any (fun q => q.1 == k) = true) :
    (t.map (fun q => if q.1 == k then (k, v) else q)).find?
        (fun q => q.1 == k) = some (k, v) := by
  induction t with
  | nil => simp at hany
  | cons q s ih =>
    by_cases hq : (q.1 == k) = true
    · simp only [List.map_cons, hq, if_true]
      rw [List.find?_cons_of_pos _ (by simp)]
    · have hrest : s.any (fun q => q.1 == k) = true := by
        simp only [List.any_cons, hq, Bool.false_or] at hany
        exact hany
      simp only [List.map_cons, hq, if_false, Bool.false_eq_true]
      rw [List.find?_cons_of_neg _ (by simpa using hq)]
      exact ih hrest

/-- The append pass of `oset` finds the new value at the assigned key. -/
theorem find_append_oset_self (l : Obj) (k : String) (v : JVal)
    (hnone : l.any (fun q => q.1 == k) = false) :
    (l ++ [(k, v)]).find? (fun q => q.1 == k) = some (k, v) := by
  induction l with
  | nil => simp [List.find?_cons]
  | cons q s ih =>
    simp only [List.any_cons, Bool.or_eq_false_iff] at hnone
    rw [List.cons_append, List.find?_cons_of_neg _ (by simp [hnone.1])]
    exact ih hnone.2

/-- The replace-in-place pass of `oset` leaves lookups of other keys
unchanged. -/
theorem find_map_oset_ne (t : Obj) (k k' : String) (v : JVal) (h : ¬ k = k') :
    (t.map (fun q => if q.1 == k' then (k', v) else q)).find?
        (fun q => q.1 == k) = t.find? (fun q => q.1 == k) := by
  induction t with
  | nil => rfl
  | cons q s ih =>
    by_cases hq : (q.1 == k') = true
    · have hqk : ¬ (q.1 == k) = true := by
        have := eq_of_beq hq
        simp [this]
        exact fun he => h he.symm
      have hkk : ¬ ((k' : String) == k) = true := by
        simp
        exact fun he => h he.symm
      simp only [List.map_cons, hq, if_true]
      rw [List.find?_cons_of_neg _ (by simpa using hkk),
        List.find?_cons_of_neg _ (by simpa using hqk)]
      exact ih
    · simp only [List.map_cons, hq, if_false, Bool.false_eq_true]
      by_cases hqk : (q.1 == k) = true
      · rw [List.find?_cons_of_pos _ (by simpa using hqk),
          List.find?_cons_of_pos _ (by simpa using hqk)]
      · rw [List.find?_cons_of_neg _ (by simpa using hqk),
          List.find?_cons_of_neg _ (by simpa using hqk)]
        exact ih

/-- The append pass of `oset` leaves lookups of other keys unchanged. -/
theorem find_append_oset_ne (l : Obj) (k k' : String) (v : JVal) (h : ¬ k = k') :
    (l ++ [(k', v)]).find? (fun q => q.1 == k) = l.find? (fun q => q.1 == k) := by
  induction l with
  | nil =>
    simp only [List.nil_append, List.find?_nil]
    rw [List.find?_cons_of_neg _ (by simp; exact fun he => h he.symm)]
    rfl
  | cons q s ih =>
    by_cases hq : (q.1 == k) = true
    · rw [List.cons_append, List.find?_cons_of_pos _ (by simpa using hq),
        List.find?_cons_of_pos _ (by simpa using hq)]
    · rw [List.cons_append, List.find?_cons_of_neg _ (by simpa using hq),
        List.find?_cons_of_neg _ (by simpa using hq)]
      exact ih

/-- Reading the key just assigned returns the assigned value. -/
theorem oget_oset_self (r : Obj) (k : String) (v : JVal) :
    oget (oset r k v) k = some v := by
  unfold oset oget
  cases hany : r.any (fun q => q.1 == k) with
  | true =>
    rw [if_pos rfl, find_map_oset_self r k v hany]
    rfl
  | false =>
    rw [if_neg (by simp [hany]), find_append_oset_self r k v hany]
    rfl

/-- Reading a different key after an assignment is unchanged. -/
theorem oget_oset_ne (r : Obj) (k k' : String) (v : JVal) (h : ¬ k = k') :
    oget (oset r k' v) k = oget r k := by
  unfold oset oget
  cases hany : r.any (fun q => q.1 == k') with
  | true =>
    rw [if_pos rfl, find_map_oset_ne r k k' v h]
  | false =>
    rw [if_neg (by simp [hany]), find_append_oset_ne r k k' v h]

/-- Updating with items whose keys avoid k leaves the k entry unchanged. -/
theorem oget_oupdate_notmem (k : String) :
    ∀ (data : Obj) (acc : Obj), k ∉ data.map Prod.fst →
      oget (oupdate acc data) k = oget acc k := by
  intro data
  induction data with
  | nil => intro acc _; rfl
  | cons p rest ih =>
    intro acc hk
    simp only [List.map_cons, List.mem_cons, not_or] at hk
    show oget (oupdate (oset acc p.1 p.2) rest) k = _
    rw [ih _ hk.2, oget_oset_ne _ _ _ _ hk.1]

/-- `d.update(other)` with unique keys in `other`: the resulting value at k
is other's value when other has the key, the accumulator's otherwise. -/
theorem oget_oupdate (k : String) :
    ∀ (data : Obj) (acc : Obj), (data.map Prod.fst).Nodup →
      oget (oupdate acc data) k =
        (match oget data k with
         | some v => some v
         | none => oget acc k) := by
  intro data
  induction data with
  | nil => intro acc _; rfl
  | cons p rest ih =>
    intro acc hnd
    simp only [List.map_cons, List.nodup_cons] at hnd
    show oget (oupdate (oset acc p.1 p.2) rest) k = _
    by_cases hk : k = p.1
    · subst hk
      rw [oget_oupdate_notmem p.1 rest _ hnd.1, oget_oset_self]
      have hhead : oget (p :: rest) p.1 = some p.2 := by
        unfold oget
        rw [List.find?_cons_of_pos _ (by simp)]
        rfl
      rw [hhead]
    · rw [ih _ hnd.2]
      have hhead : oget (p :: rest) k = oget rest k := by
        unfold oget
        rw [List.find?_cons_of_neg _ (by simp; exact fun he => hk he.symm)]
      rw [hhead, oget_oset_ne _ _ _ _ hk]

namespace Store

/-- Inserting a record and reading it back at its key. -/
theorem collGet_collSet_self (c : Coll) (key : JVal) (rec : Obj) :
    collGet (collSet c key rec) key = some rec := by
  unfold collGet collSet
  cases hany : c.any (fun p => JVal.beq p.1 key) with
  | true =>
    rw [if_pos rfl]
    induction c with
    | nil => simp at hany
    | cons q s ih =>
      by_cases hq : JVal.beq q.1 key = true
      · simp only [List.map_cons, hq, if_true]
        rw [List.find?_cons_of_pos _ (by simp [JVal.beq_refl])]
        rfl
      · have hrest : s.any (fun p => JVal.beq p.1 key) = true := by
          simp only [List.any_cons, hq, Bool.false_or] at hany
          exact hany
        simp only [List.map_cons, hq, if_false, Bool.false_eq_true]
        rw [List.find?_cons_of_neg _ (by simpa using hq)]
        exact ih hrest
  | false =>
    rw [if_neg (by simp [hany])]
    induction c with
    | nil =>
      simp only [List.nil_append]
      rw [List.find?_cons_of_pos _ (by simp [JVal.beq_refl])]
      rfl
    | cons q s ih =>
      simp only [List.any_cons, Bool.or_eq_false_iff] at hany
      rw [List.cons_append, List.find?_cons_of_neg _ (by simp [hany.1])]
      exact ih hany.2

/-- Replacing a collection and looking it up again. -/
theorem lookup_dbSetColl (db : Db) (name : String) (c : Coll)
    (h : (db.lookup name).isSome) : (dbSetColl db name c).lookup name = some c := by
  induction db with
  | nil => simp [List.lookup] at h
  | cons p t ih =>
    by_cases hp : (p.1 == name) = true
    · have : name == p.1 := by
        have := eq_of_beq hp
        simp [this]
      unfold dbSetColl
      rw [List.map_cons, if_pos hp]
      show List.lookup name ((name, c) :: _) = some c
      rw [List.lookup_cons_self]
    · have hne : ¬ (name == p.1) = true := by
        intro hc
        exact hp (by have := eq_of_beq hc; simp [this])
      have h' : (t.lookup name).isSome := by
        rw [List.lookup] at h
        simp only [hne] at h
        simpa using h
      unfold dbSetColl
      rw [List.map_cons, if_neg hp]
      rw [List.lookup]
      simp only [hne]
      exact ih h'

end Store

namespace Store

/-- Stamping touches only createdAt, lastLoginAt and online. -/
theorem oget_stampNew_ne (collection : String) (r : Obj) (now : Int)
    (k : String) (h1 : ¬ k = "createdAt") (h2 : ¬ k = "lastLoginAt")
    (h3 : ¬ k = "online") : oget (stampNew collection r now) k = oget r k := by
  unfold stampNew
  split_ifs
  · rw [oget_oset_ne _ _ _ _ h3, oget_oset_ne _ _ _ _ h2, oget_oset_ne _ _ _ _ h1]
  · rw [oget_oset_ne _ _ _ _ h3, oget_oset_ne _ _ _ _ h2, oget_oset_ne _ _ _ _ h1]
  · rw [oget_oset_ne _ _ _ _ h1]
  · rw [oget_oset_ne _ _ _ _ h1]
  · rfl

/-- After stamping one of the four real collections, `createdAt` holds the
timestamp. -/
theorem oget_stampNew_createdAt (collection : String) (r : Obj) (now : Int)
    (hc : collection ∈ (["Player", "Developer", "Game", "Room"] : List String)) :
    oget (stampNew collection r now) "createdAt" = some (.ji now) := by
  fin_cases hc
  · show oget (oset (oset (oset r "createdAt" (.ji now)) "lastLoginAt" (.ji now))
        "online" (.jb false)) "createdAt" = some (.ji now)
    rw [oget_oset_ne _ _ _ _ (by decide), oget_oset_ne _ _ _ _ (by decide),
      oget_oset_self]
  · show oget (oset (oset (oset r "createdAt" (.ji now)) "lastLoginAt" (.ji now))
        "online" (.jb false)) "createdAt" = some (.ji now)
    rw [oget_oset_ne _ _ _ _ (by decide), oget_oset_ne _ _ _ _ (by decide),
      oget_oset_self]
  · show oget (oset r "createdAt" (.ji now)) "createdAt" = some (.ji now)
    rw [oget_oset_self]
  · show oget (oset r "createdAt" (.ji now)) "createdAt" = some (.ji now)
    rw [oget_oset_self]

/-- After stamping Player or Developer, `lastLoginAt` and `online` are
set. -/
theorem oget_stampNew_extras (collection : String) (r : Obj) (now : Int)
    (hc : collection = "Player" ∨ collection = "Developer") :
    oget (stampNew collection r now) "lastLoginAt" = some (.ji now) ∧
    oget (stampNew collection r now) "online" = some (.jb false) := by
  rcases hc with rfl | rfl
  · exact ⟨by
      show oget (oset (oset (oset r "createdAt" (.ji now)) "lastLoginAt" (.ji now))
          "online" (.jb false)) "lastLoginAt" = some (.ji now)
      rw [oget_oset_ne _ _ _ _ (by decide), oget_oset_self], by
      show oget (oset (oset (oset r "createdAt" (.ji now)) "lastLoginAt" (.ji now))
          "online" (.jb false)) "online" = some (.jb false)
      rw [oget_oset_self]⟩
  · exact ⟨by
      show oget (oset (oset (oset r "createdAt" (.ji now)) "lastLoginAt" (.ji now))
          "online" (.jb false)) "lastLoginAt" = some (.ji now)
      rw [oget_oset_ne _ _ _ _ (by decide), oget_oset_self], by
      show oget (oset (oset (oset r "createdAt" (.ji now)) "lastLoginAt" (.ji now))
          "online" (.jb false)) "online" = some (.jb false)
      rw [oget_oset_self]⟩

end Store

/-- C2 (amended): the store's create generates a fresh UUID as the new
record's id *unless `data` itself carries an "id" key, whose value then
overrides the generated id* (because `new_item` starts as `{"id": fresh}`
and is then dict-`update`d with `data`); it stamps `createdAt` with the
current time (for Player and Developer also `lastLoginAt` and
`online=False`), keeps every other field of `data`, inserts the record
into its collection keyed by the record's id, and returns the full record
with a success status. -/
theorem claim2_amended (db : Store.Db) (collection : String) (data : Obj)
    (freshId : String) (now : Int)
    (hcoll : collection ∈ (["Player", "Developer", "Game", "Room"] : List String))
    (hdb : (db.lookup collection).isSome)
    (hnd : (data.map Prod.fst).Nodup) :
    ∃ rec : Obj,
      (Store.create db collection data freshId now).1 =
        { status := "success", rdata := some (.jo rec), errorMsg := none } ∧
      oget rec "id" = some ((oget data "id").getD (.js freshId)) ∧
      oget rec "createdAt" = some (.ji now) ∧
      ((collection = "Player" ∨ collection = "Developer") →
        oget rec "lastLoginAt" = some (.ji now) ∧
        oget rec "online" = some (.jb false)) ∧
      (∀ k : String, ¬ k = "id" → ¬ k = "createdAt" → ¬ k = "lastLoginAt" →
        ¬ k = "online" → oget rec k = oget data k) ∧
      Store.collGet
        (((Store.create db collection data freshId now).2.lookup collection).getD [])
        ((oget rec "id").getD .jnull) = some rec := by
  obtain ⟨coll, hcv⟩ := Option.isSome_iff_exists.mp hdb
  have hid0 : oget (oupdate [("id", JVal.js freshId)] data) "id" =
      some ((oget data "id").getD (.js freshId)) := by
    rw [oget_oupdate "id" data _ hnd]
    cases hdata : oget data "id" with
    | none => rfl
    | some v => rfl
  have hidS : oget (Store.stampNew collection
      (oupdate [("id", JVal.js freshId)] data) now) "id" =
      some ((oget data "id").getD (.js freshId)) := by
    rw [Store.oget_stampNew_ne _ _ _ _ (by decide) (by decide) (by decide), hid0]
  refine ⟨Store.stampNew collection (oupdate [("id", JVal.js freshId)] data) now,
    ?_, hidS, Store.oget_stampNew_createdAt collection _ now hcoll,
    fun hpd => Store.oget_stampNew_extras collection _ now hpd, ?_, ?_⟩
  · simp only [Store.create, hcv, hidS]
  · intro k h1 h2 h3 h4
    rw [Store.oget_stampNew_ne _ _ _ _ h2 h3 h4, oget_oupdate k data _ hnd]
    cases hdata : oget data k with
    | none =>
      show oget [("id", JVal.js freshId)] k = none
      unfold oget
      rw [List.find?_cons_of_neg _ (by simp; exact fun he => h1 he.symm)]
      rfl
    | some v => rfl
  · simp only [Store.create, hcv, hidS]
    rw [Store.lookup_dbSetColl db collection _ hdb]
    simp only [Option.getD_some]
    exact Store.collGet_collSet_self coll _ _

/-- A store with the four empty collections, as initialised on first
start. -/
def c2db : Store.Db :=
  [("Player", []), ("Developer", []), ("Game", []), ("Room", [])]

/-- C2 counterexample to the claim as stated: creating a Game whose data
carries `"id": "x"` stores and returns the record under "x", not under
the freshly generated UUID "fresh-uuid". -/
theorem claim2_counterexample :
    (Store.create c2db "Game" [("id", JVal.js "x")] "fresh-uuid" 0).1.rdata =
      some (.jo [("id", JVal.js "x"), ("createdAt", JVal.ji 0)]) ∧
    ¬ ("x" : String) = "fresh-uuid" := by
  constructor
  · rfl
  · decide

/-- C2 witness: the amended theorem applied to a concrete Game creation
without a supplied id. -/
theorem claim2_witness :
    ∃ rec : Obj,
      (Store.create c2db "Game" [("name", JVal.js "g")] "u1" 5).1 =
        { status := "success", rdata := some (.jo rec), errorMsg := none } ∧
      oget rec "id" =
        some ((oget [("name", JVal.js "g")] "id").getD (.js "u1")) ∧
      oget rec "createdAt" = some (.ji 5) ∧
      ((("Game" : String) = "Player" ∨ ("Game" : String) = "Developer") →
        oget rec "lastLoginAt" = some (.ji 5) ∧
        oget rec "online" = some (.jb false)) ∧
      (∀ k : String, ¬ k = "id" → ¬ k = "createdAt" → ¬ k = "lastLoginAt" →
        ¬ k = "online" → oget rec k = oget [("name", JVal.js "g")] k) ∧
      Store.collGet
        (((Store.create c2db "Game" [("name", JVal.js "g")] "u1" 5).2.lookup
          "Game").getD [])
        ((oget rec "id").getD .jnull) = some rec :=
  claim2_amended c2db "Game" [("name", JVal.js "g")] "u1" 5 (by decide) rfl
    (by simp)

/-- C10 (amended): for a stored user whose online flag is truthy, the
login response is the error "User already online." for every *non-empty*
supplied password — the online check runs before password verification, so
any two such login requests differing only in the password produce the
identical response (an empty password is rejected earlier with
"Username and password are required.", before the user is even queried). -/
theorem claim10_amended (c : Lobby.Ctx) (st : Lobby.LState) (n : Nat)
    (collection username : String) (u : Obj) (rest : List JVal)
    (hu : ¬ username = "")
    (hs : statusSuccess (c.db n ⟨collection, "query", [("name", .js username)]⟩) = true)
    (hd : oget (c.db n ⟨collection, "query", [("name", .js username)]⟩) "data" =
      some (.ja (JVal.jo u :: rest)))
    (hon : truthyOpt (oget u "online") = true) :
    ∀ (d : Lobby.ReqData) (p : String), d.username = some username →
      ¬ p = "" → d.password = some p →
      (Lobby.handle_login c collection d).run st n =
        (.ok (Lobby.errResp "User already online."), st, n+1,
         [⟨collection, "query", [("name", .js username)]⟩]) := by
  intro d p hdu hp hdp
  have hbu : (username == "") = false := by simpa using hu
  have hbp : (p == "") = false := by simpa using hp
  unfold Lobby.handle_login
  rw [hdu, hdp]
  simp only [hbu, hbp, Bool.or_self, Bool.false_eq_true, if_false,
    Lobby.run_bind, Lobby.run_sendDb, Lobby.run_pure, Lobby.run_lift, hs,
    Bool.not_true, jField, hd, jIndex0, JVal.truthy, hon]
  simp [Lobby.run_bind, Lobby.run_pure, Lobby.run_lift, hon]

/-- The concrete online user record used for C10. -/
def c10user : Obj :=
  [("id", JVal.js "u1"), ("name", JVal.js "alice"),
   ("passwordHash", JVal.js "h"), ("online", JVal.jb true)]

/-- A store oracle that answers every query with alice's online record. -/
def c10ctx : Lobby.Ctx :=
  { db := fun _ _ => [("status", JVal.js "success"),
      ("data", JVal.ja [JVal.jo c10user])],
    fsExists := fun _ => false, fsRead := fun _ => none,
    b64e := fun s => s, shaHex := fun s => s, sessUuid := "sid", now := 0 }

/-- An empty lobby state. -/
def c10st : Lobby.LState := { sessions := [], rooms := [], nextPort := 9000 }

/-- Login request data for alice with a chosen password. -/
def c10data (p : String) : Lobby.ReqData :=
  { sessionID := none, id := none, gameId := none, invite := none,
    visibility := none, role := none, username := some "alice",
    password := some p }

/-- C10 counterexample to the claim as stated: two login requests for the
online user differing only in the password ("" versus "x") produce
different responses — the empty password is rejected before the online
check, so the response is not independent of the supplied password. -/
theorem claim10_counterexample :
    ((Lobby.handle_login c10ctx "Player" (c10data "")).run c10st 0).1 =
      .ok (Lobby.errResp "Username and password are required.") ∧
    ((Lobby.handle_login c10ctx "Player" (c10data "x")).run c10st 0).1 =
      .ok (Lobby.errResp "User already online.") ∧
    ¬ ("Username and password are required." : String) = "User already online." := by
  refine ⟨rfl, rfl, by decide⟩

/-- C10 witness: the amended theorem applied to alice's record with the
password "x". -/
theorem claim10_witness :
    (Lobby.handle_login c10ctx "Player" (c10data "x")).run c10st 0 =
      (.ok (Lobby.errResp "User already online."), c10st, 1,
       [⟨"Player", "query", [("name", JVal.js "alice")]⟩]) :=
  claim10_amended c10ctx c10st 0 "Player" "alice" c10user [] (by decide) rfl rfl
    rfl (c10data "x") "x" rfl (by decide) rfl

/-- C5 (amended): `upload-game` requires *at least* two files: with a
valid session and fewer than two files the lobby answers the error
"Two files are required." without creating a folder, writing a file or
recording a Game row (an invalid session is likewise rejected up front
with no effects); a request with two *or more* files proceeds. -/
theorem claim5_amended (c : DevSrv.Ctx)
    (sessions : List (String × Lobby.SessUser)) (data : DevSrv.UpData)
    (n : Nat) :
    (data.sessionID.bind (sessions.lookup ·) = none →
      (DevSrv.handle_upload_game c sessions data).run n =
        (.ok (Lobby.errResp "Invalid session."), n, [])) ∧
    (∀ user, data.sessionID.bind (sessions.lookup ·) = some user →
      data.files.length < 2 →
      (DevSrv.handle_upload_game c sessions data).run n =
        (.ok (Lobby.errResp "Two files are required."), n, [])) := by
  constructor
  · intro h
    unfold DevSrv.handle_upload_game
    rw [h]
    rfl
  · intro user h hlt
    unfold DevSrv.handle_upload_game
    rw [h]
    show (if data.files.length < 2 then
        pure (Lobby.errResp "Two files are required.")
      else DevSrv.DM.tryE
        (DevSrv.uploadBody c user (data.gameName.getD "untitled_game") data.files)
        (fun e => Lobby.errResp ("Server failed to save files: " ++ e))).run n = _
    rw [if_pos hlt]
    rfl

/-- Developer-lobby context for C5: fresh uuid "uuid1", nothing on disk,
base64 decoding the identity, a store answering success. -/
def c5ctx : DevSrv.Ctx :=
  { uuid := "uuid1", fsExists := fun _ => false, b64d := fun s => some s,
    db := fun _ _ => [("status", JVal.js "success")] }

/-- One logged-in developer session. -/
def c5sessions : List (String × Lobby.SessUser) :=
  [("s", { userId := JVal.js "d1", name := JVal.js "dev" })]

/-- A three-file upload request. -/
def c5data : DevSrv.UpData :=
  { sessionID := some "s", gameName := some "tet",
    files := [{ filename := some "server.py", content := some "a" },
              { filename := some "client.py", content := some "b" },
              { filename := some "extra.py", content := some "c" }] }

/-- C5 counterexample to the claim as stated: an upload whose files list
has three entries (not exactly two) is *not* rejected — it succeeds,
creating the folder, writing all three files and recording the Game row
(five effects in total). -/
theorem claim5_counterexample :
    (match ((DevSrv.handle_upload_game c5ctx c5sessions c5data).run 0).1 with
     | .ok r => r.status
     | .error e => e) = "success" ∧
    ((DevSrv.handle_upload_game c5ctx c5sessions c5data).run 0).2.2.length = 5 ∧
    ¬ c5data.files.length = 2 := by
  refine ⟨rfl, rfl, by decide⟩

/-- C5 witness: the amended theorem applied to a one-file upload, which is
rejected with no effects. -/
theorem claim5_witness :
    (DevSrv.handle_upload_game c5ctx c5sessions
      { sessionID := some "s", gameName := some "tet",
        files := [{ filename := some "server.py", content := some "a" }] }).run 0 =
      (.ok (Lobby.errResp "Two files are required."), 0, []) :=
  (claim5_amended c5ctx c5sessions
    { sessionID := some "s", gameName := some "tet",
      files := [{ filename := some "server.py", content := some "a" }] } 0).2
    { userId := JVal.js "d1", name := JVal.js "dev" } rfl (by decide)

namespace Lobby

/-- Invalid sessions make the session id resolve to no user. -/
theorem sessionOk_bind_none (st : LState) (sid : Option String)
    (h : sessionOk st sid = false) :
    sid.bind (st.sessions.lookup ·) = none := by
  cases sid with
  | none => rfl
  | some s =>
    show st.sessions.lookup s = none
    have h2 : (st.sessions.lookup s).isSome = false := h
    cases hr : st.sessions.lookup s with
    | none => rfl
    | some u => rw [hr] at h2; simp at h2

/-- `list-games` with an invalid session: error, no store traffic. -/
theorem list_games_invalid (c : Ctx) (st : LState) (n : Nat) (data : ReqData)
    (hsess : sessionOk st data.sessionID = false) :
    (handle_list_games c data).run st n =
      (.ok (errResp "Invalid session or not logged in."), st, n, []) := by
  unfold handle_list_games
  simp only [run_bind, run_getSt, hsess, Bool.not_false, if_true, run_pure]
  rfl

/-- `create-room` with an invalid session: error, no store traffic. -/
theorem create_room_invalid (c : Ctx) (st : LState) (n : Nat) (data : ReqData)
    (hsess : sessionOk st data.sessionID = false) :
    (handle_create_room c data).run st n =
      (.ok (errResp "Invalid session or not logged in."), st, n, []) := by
  unfold handle_create_room
  cases hid : data.sessionID with
  | none =>
    simp only [run_bind, run_getSt, run_pure]
    rfl
  | some sid =>
    have hl : st.sessions.lookup sid = none := by
      have := sessionOk_bind_none st data.sessionID hsess
      rw [hid] at this
      exact this
    simp only [run_bind, run_getSt, hl, run_pure]
    rfl

/-- `logout` with an unresolvable session id: error, no store traffic. -/
theorem logout_invalid (c : Ctx) (collection : String) (st : LState) (n : Nat)
    (sid : Option String) (h : sid.bind (st.sessions.lookup ·) = none) :
    (handle_logout c collection sid).run st n =
      (.ok (errResp "Invalid or expired session ID."), st, n, []) := by
  unfold handle_logout
  cases sid with
  | none =>
    simp only [run_bind, run_getSt, run_pure]
    rfl
  | some s =>
    have hl : st.sessions.lookup s = none := h
    simp only [run_bind, run_getSt, hl, run_pure]
    rfl

/-- `join-room` with an invalid session: the state is untouched, no store
request is issued, and any response has status "error" (a missing id with
live rooms crashes the handler instead of responding). -/
theorem join_room_invalid (c : Ctx) (st : LState) (n : Nat) (data : ReqData)
    (hsess : sessionOk st data.sessionID = false) :
    ((handle_join_room c data).run st n).2.1 = st ∧
    ((handle_join_room c data).run st n).2.2.2 = [] ∧
    (∀ r, ((handle_join_room c data).run st n).1 = .ok r →
      r.status = "error") := by
  have hnone := sessionOk_bind_none st data.sessionID hsess
  have key : ∃ out1, (handle_join_room c data).run st n = (out1, st, n, []) ∧
      (∀ r, out1 = .ok r → r.status = "error") := by
    unfold handle_join_room
    cases hid : data.id with
    | none =>
      cases hre : st.rooms.isEmpty with
      | false =>
        refine ⟨.error "TypeError: startswith argument is None", ?_, ?_⟩
        · simp only [run_bind, run_getSt, hre, Bool.false_eq_true, if_false,
            run_raise]
          rfl
        · rintro r hr
          cases hr
      | true =>
        refine ⟨.ok (errResp "Room not found."), ?_, ?_⟩
        · simp only [run_bind, run_getSt, hre, if_true, run_pure]
          rfl
        · rintro r hr
          injection hr with hr1
          rw [← hr1]
          rfl
    | some rid =>
      cases hm : matchingRooms st.rooms rid with
      | nil =>
        refine ⟨.ok (errResp "Room not found."), ?_, ?_⟩
        · simp only [run_bind, run_getSt, hm, List.isEmpty_nil, if_true, run_pure]
          rfl
        · rintro r hr
          injection hr with hr1
          rw [← hr1]
          rfl
      | cons k rest =>
        cases rest with
        | nil =>
          refine ⟨.ok (errResp "Invalid session."), ?_, ?_⟩
          · simp only [run_bind, run_getSt, hm, List.isEmpty_cons,
              Bool.false_eq_true, if_false, List.length_cons, List.length_nil]
            rw [if_neg (by omega : ¬ 2 ≤ 0 + 1)]
            unfold joinRoomWith
            simp only [List.headD_cons, run_bind, run_getSt, hnone, run_pure]
            rfl
          · rintro r hr
            injection hr with hr1
            rw [← hr1]
            rfl
        | cons k2 rest2 =>
          refine ⟨.ok (errResp "Ambiguous ID."), ?_, ?_⟩
          · simp only [run_bind, run_getSt, hm, List.isEmpty_cons,
              Bool.false_eq_true, if_false, List.length_cons]
            rw [if_pos (by omega : 2 ≤ rest2.length + 1 + 1)]
            simp only [run_pure]
            rfl
          · rintro r hr
            injection hr with hr1
            rw [← hr1]
            rfl
  obtain ⟨out1, hrun, hst⟩ := key
  rw [hrun]
  exact ⟨rfl, rfl, hst⟩

/-- `delete-room` with an invalid session: the state is untouched, every
store request issued is a read-only query (at most the one room lookup),
and any response has status "error". -/
theorem delete_room_invalid (c : Ctx) (st : LState) (n : Nat) (data : ReqData)
    (hsess : sessionOk st data.sessionID = false) :
    ((handle_delete_room c data false).run st n).2.1 = st ∧
    (∀ req ∈ ((handle_delete_room c data false).run st n).2.2.2,
      req.act = "query") ∧
    (∀ r, ((handle_delete_room c data false).run st n).1 = .ok r →
      r.status = "error") := by
  have hnone := sessionOk_bind_none st data.sessionID hsess
  have key : ∃ out1 n2 log, (handle_delete_room c data false).run st n =
      (out1, st, n2, log) ∧ (∀ req ∈ log, req.act = "query") ∧
      (∀ r, out1 = .ok r → r.status = "error") := by
    unfold handle_delete_room
    cases hid : data.id with
    | none =>
      cases hre : st.rooms.isEmpty with
      | false =>
        refine ⟨.error "TypeError: startswith argument is None", n, [], ?_, ?_, ?_⟩
        · simp only [run_bind, run_getSt, hre, Bool.false_eq_true, if_false,
            run_raise]
          rfl
        · intro req hreq
          cases hreq
        · rintro r hr
          cases hr
      | true =>
        refine ⟨.ok (errResp "Room not found."), n, [], ?_, ?_, ?_⟩
        · simp only [run_bind, run_getSt, hre, if_true, run_pure]
          rfl
        · intro req hreq
          cases hreq
        · rintro r hr
          injection hr with hr1
          rw [← hr1]
          rfl
    | some rid =>
      cases hm : matchingRooms st.rooms rid with
      | nil =>
        refine ⟨.ok (errResp "Room not found."), n, [], ?_, ?_, ?_⟩
        · simp only [run_bind, run_getSt, hm, List.isEmpty_nil, if_true, run_pure]
          rfl
        · intro req hreq
          cases hreq
        · rintro r hr
          injection hr with hr1
          rw [← hr1]
          rfl
      | cons k rest =>
        cases rest with
        | cons k2 rest2 =>
          refine ⟨.ok (errResp "Ambiguous ID."), n, [], ?_, ?_, ?_⟩
          · simp only [run_bind, run_getSt, hm, List.isEmpty_cons,
              Bool.false_eq_true, if_false, List.length_cons]
            rw [if_pos (by omega : 2 ≤ rest2.length + 1 + 1)]
            simp only [run_pure]
            rfl
          · intro req hreq
            cases hreq
          · rintro r hr
            injection hr with hr1
            rw [← hr1]
            rfl
        | nil =>
          cases hstat : statusSuccess (c.db n
              ⟨"Room", "query", [("id", JVal.js k)]⟩) with
          | false =>
            refine ⟨.ok (errResp "DB dead."), n+1,
              [⟨"Room", "query", [("id", JVal.js k)]⟩], ?_, ?_, ?_⟩
            · simp only [run_bind, run_getSt, hm, List.isEmpty_cons,
                Bool.false_eq_true, if_false, List.length_cons, List.length_nil]
              rw [if_neg (by omega : ¬ 2 ≤ 0 + 1)]
              simp only [List.headD_cons, run_bind, run_sendDb, hstat,
                Bool.not_false, if_true, run_pure]
              rfl
            · intro req hreq
              rw [List.mem_singleton] at hreq
              rw [hreq]
            · rintro r hr
              injection hr with hr1
              rw [← hr1]
              rfl
          | true =>
            cases hj : jIndex0 ((oget (c.db n
                ⟨"Room", "query", [("id", JVal.js k)]⟩) "data").getD .jnull) with
            | error e =>
              refine ⟨.error e, n+1,
                [⟨"Room", "query", [("id", JVal.js k)]⟩], ?_, ?_, ?_⟩
              · simp only [run_bind, run_getSt, hm, List.isEmpty_cons,
                  Bool.false_eq_true, if_false, List.length_cons, List.length_nil]
                rw [if_neg (by omega : ¬ 2 ≤ 0 + 1)]
                simp only [List.headD_cons, run_bind, run_sendDb, hstat,
                  Bool.not_true, Bool.false_eq_true, if_false, hj, run_lift]
                rfl
              · intro req hreq
                rw [List.mem_singleton] at hreq
                rw [hreq]
              · rintro r hr
                cases hr
            | ok first =>
              cases hf : jField first "owner" with
              | error e =>
                refine ⟨.error e, n+1,
                  [⟨"Room", "query", [("id", JVal.js k)]⟩], ?_, ?_, ?_⟩
                · simp only [run_bind, run_getSt, hm, List.isEmpty_cons,
                    Bool.false_eq_true, if_false, List.length_cons, List.length_nil]
                  rw [if_neg (by omega : ¬ 2 ≤ 0 + 1)]
                  simp only [List.headD_cons, run_bind, run_sendDb, hstat,
                    Bool.not_true, Bool.false_eq_true, if_false, hj, hf,
                    run_lift]
                  rfl
                · intro req hreq
                  rw [List.mem_singleton] at hreq
                  rw [hreq]
                · rintro r hr
                  cases hr
              | ok owner =>
                refine ⟨.ok (errResp "Only the room owner can delete the room."),
                  n+1, [⟨"Room", "query", [("id", JVal.js k)]⟩], ?_, ?_, ?_⟩
                · simp only [run_bind, run_getSt, hm, List.isEmpty_cons,
                    Bool.false_eq_true, if_false, List.length_cons, List.length_nil]
                  rw [if_neg (by omega : ¬ 2 ≤ 0 + 1)]
                  simp only [List.headD_cons, run_bind, run_sendDb, hstat,
                    Bool.not_true, Bool.false_eq_true, if_false, hj, hf,
                    run_lift, hnone, Bool.not_false, Bool.and_self, if_true,
                    run_pure]
                  rfl
                · intro req hreq
                  rw [List.mem_singleton] at hreq
                  rw [hreq]
                · rintro r hr
                  injection hr with hr1
                  rw [← hr1]
                  rfl
  obtain ⟨out1, n2, log, hrun, hlog, hst⟩ := key
  rw [hrun]
  exact ⟨rfl, hlog, hst⟩

/-- `handle_rooms` performs no session check: with the invite present and
a well-behaved store the three queries are issued and the call succeeds,
regardless of the session table. -/
theorem rooms_no_session_check (c : Ctx) (st : LState) (n : Nat)
    (data : ReqData) (inv : JVal) (l1 l2 l3 : List JVal)
    (hinv : data.invite = some inv)
    (hs : statusSuccess (c.db n
      ⟨"Room", "query", [("visibility", JVal.js "public")]⟩) = true)
    (h2 : oget (c.db n ⟨"Room", "query", [("visibility", JVal.js "public")]⟩)
      "data" = some (.ja l2))
    (h1 : oget (c.db (n+1)
      ⟨"Room", "query", [("visibility", JVal.js "private"), ("invite", inv)]⟩)
      "data" = some (.ja l1))
    (h3 : oget (c.db (n+1+1)
      ⟨"Room", "query", [("visibility", JVal.js "private"), ("owner", inv)]⟩)
      "data" = some (.ja l3)) :
    (handle_rooms c data).run st n =
      (.ok (okResp (.ja (l1 ++ l2 ++ l3))), st, n+1+1+1,
       [⟨"Room", "query", [("visibility", JVal.js "public")]⟩,
        ⟨"Room", "query", [("visibility", JVal.js "private"), ("invite", inv)]⟩,
        ⟨"Room", "query", [("visibility", JVal.js "private"), ("owner", inv)]⟩]) := by
  unfold handle_rooms
  simp only [run_bind, run_sendDb, hs, Bool.not_true, Bool.false_eq_true,
    if_false, hinv, h1, h2, h3, run_pure]
  rfl

/-- Dispatch tail: route a handler's response, pairing it with the kept
connection session. -/
theorem run_bind_pure (x : LM Resp) (cur : Option String) (st : LState)
    (n : Nat) :
    ((x >>= fun r => pure (r, cur)) : LM (Resp × Option String)).run st n =
      (match x.run st n with
       | (.ok r, st1, n1, l1) => (.ok (r, cur), st1, n1, l1)
       | (.error e, st1, n1, l1) => (.error e, st1, n1, l1)) := by
  rw [run_bind]
  rcases hx : x.run st n with ⟨r, st1, n1, l1⟩
  cases r with
  | ok a => simp [run_pure]
  | error e => rfl

end Lobby

/-- C1 (amended): lobby actions `list-games` and `create-room` require a
sessionID inside `data` present in the active-session table and reject
with a status "error" response otherwise, performing no store request;
`join-room` likewise rejects (or, on a missing id with live rooms,
crashes) without store traffic or state change; `delete-room` rejects an
invalid session but, when the room prefix resolves uniquely, only *after*
one read-only store query; `logout` resolves the session as data's
sessionID when that is a non-empty string and as the connection's current
session otherwise, rejecting without store traffic when the resolved
session is absent; unknown actions are rejected without store traffic;
but `rooms` performs *no* session check at all — with the invite present
and a well-behaved store it issues its three queries and succeeds even
with no valid session. -/
theorem claim1_amended (c : Lobby.Ctx) (st : Lobby.LState)
    (cur : Option String) (action : String) (data : Lobby.ReqData) (n : Nat)
    (hsess : Lobby.sessionOk st data.sessionID = false) :
    (action = "list-games" →
      (Lobby.dispatch c cur action data).run st n =
        (.ok (Lobby.errResp "Invalid session or not logged in.", cur), st, n, [])) ∧
    (action = "create-room" →
      (Lobby.dispatch c cur action data).run st n =
        (.ok (Lobby.errResp "Invalid session or not logged in.", cur), st, n, [])) ∧
    (action = "join-room" →
      ((Lobby.dispatch c cur action data).run st n).2.1 = st ∧
      ((Lobby.dispatch c cur action data).run st n).2.2.2 = [] ∧
      (∀ r cur2, ((Lobby.dispatch c cur action data).run st n).1 = .ok (r, cur2) →
        r.status = "error")) ∧
    (action = "delete-room" →
      ((Lobby.dispatch c cur action data).run st n).2.1 = st ∧
      (∀ req ∈ ((Lobby.dispatch c cur action data).run st n).2.2.2,
        req.act = "query") ∧
      (∀ r cur2, ((Lobby.dispatch c cur action data).run st n).1 = .ok (r, cur2) →
        r.status = "error")) ∧
    (action = "logout" →
      ((if truthyOpt (data.sessionID.map JVal.js) then data.sessionID
        else cur).bind (st.sessions.lookup ·)) = none →
      (Lobby.dispatch c cur action data).run st n =
        (.ok (Lobby.errResp "Invalid or expired session ID.", none), st, n, [])) ∧
    (action = "rooms" → ∀ (inv : JVal) (l1 l2 l3 : List JVal),
      data.invite = some inv →
      statusSuccess (c.db n
        ⟨"Room", "query", [("visibility", JVal.js "public")]⟩) = true →
      oget (c.db n ⟨"Room", "query", [("visibility", JVal.js "public")]⟩)
        "data" = some (.ja l2) →
      oget (c.db (n+1)
        ⟨"Room", "query", [("visibility", JVal.js "private"), ("invite", inv)]⟩)
        "data" = some (.ja l1) →
      oget (c.db (n+1+1)
        ⟨"Room", "query", [("visibility", JVal.js "private"), ("owner", inv)]⟩)
        "data" = some (.ja l3) →
      (Lobby.dispatch c cur action data).run st n =
        (.ok (Lobby.okResp (.ja (l1 ++ l2 ++ l3)), cur), st, n+1+1+1,
         [⟨"Room", "query", [("visibility", JVal.js "public")]⟩,
          ⟨"Room", "query", [("visibility", JVal.js "private"), ("invite", inv)]⟩,
          ⟨"Room", "query", [("visibility", JVal.js "private"), ("owner", inv)]⟩])) ∧
    (¬ action = "register" → ¬ action = "login" → ¬ action = "logout" →
     ¬ action = "create-room" → ¬ action = "delete-room" →
     ¬ action = "join-room" → ¬ action = "rooms" → ¬ action = "list-games" →
      (Lobby.dispatch c cur action data).run st n =
        (.ok (Lobby.errResp "Invalid request or action.", cur), st, n, [])) := by
  refine ⟨?_, ?_, ?_, ?_, ?_, ?_, ?_⟩
  · rintro rfl
    show ((Lobby.handle_list_games c data) >>= fun r => pure (r, cur)).run st n = _
    rw [Lobby.run_bind_pure, Lobby.list_games_invalid c st n data hsess]
  · rintro rfl
    show ((Lobby.handle_create_room c data) >>= fun r => pure (r, cur)).run st n = _
    rw [Lobby.run_bind_pure, Lobby.create_room_invalid c st n data hsess]
  · rintro rfl
    obtain ⟨h1, h2, h3⟩ := Lobby.join_room_invalid c st n data hsess
    have hd : (Lobby.dispatch c cur "join-room" data).run st n =
        (match (Lobby.handle_join_room c data).run st n with
         | (.ok r, st1, n1, l1) => (.ok (r, cur), st1, n1, l1)
         | (.error e, st1, n1, l1) => (.error e, st1, n1, l1)) := by
      show ((Lobby.handle_join_room c data) >>= fun r => pure (r, cur)).run st n = _
      rw [Lobby.run_bind_pure]
    rcases hx : (Lobby.handle_join_room c data).run st n with ⟨er, st1, n1, l1⟩
    rw [hx] at hd h1 h2 h3
    cases er with
    | ok a =>
      rw [hd]
      refine ⟨h1, h2, ?_⟩
      rintro r cur2 hr
      injection hr with hr1
      have ha : a = r := congrArg Prod.fst hr1
      rw [← ha]
      exact h3 a rfl
    | error e =>
      rw [hd]
      refine ⟨h1, h2, ?_⟩
      rintro r cur2 hr
      cases hr
  · rintro rfl
    obtain ⟨h1, h2, h3⟩ := Lobby.delete_room_invalid c st n data hsess
    have hd : (Lobby.dispatch c cur "delete-room" data).run st n =
        (match (Lobby.handle_delete_room c data false).run st n with
         | (.ok r, st1, n1, l1) => (.ok (r, cur), st1, n1, l1)
         | (.error e, st1, n1, l1) => (.error e, st1, n1, l1)) := by
      show ((Lobby.handle_delete_room c data false) >>= fun r => pure (r, cur)).run st n = _
      rw [Lobby.run_bind_pure]
    rcases hx : (Lobby.handle_delete_room c data false).run st n with ⟨er, st1, n1, l1⟩
    rw [hx] at hd h1 h2 h3
    cases er with
    | ok a =>
      rw [hd]
      refine ⟨h1, h2, ?_⟩
      rintro r cur2 hr
      injection hr with hr1
      have ha : a = r := congrArg Prod.fst hr1
      rw [← ha]
      exact h3 a rfl
    | error e =>
      rw [hd]
      refine ⟨h1, h2, ?_⟩
      rintro r cur2 hr
      cases hr
  · rintro rfl
    intro hres
    show ((Lobby.handle_logout c "Player"
        (if truthyOpt (data.sessionID.map JVal.js) then data.sessionID else cur))
        >>= fun r => pure (r, none)).run st n = _
    rw [Lobby.run_bind_pure, Lobby.logout_invalid c "Player" st n _ hres]
  · rintro rfl
    intro inv l1 l2 l3 hinv hs h2 h1 h3
    show ((Lobby.handle_rooms c data) >>= fun r => pure (r, cur)).run st n = _
    rw [Lobby.run_bind_pure,
      Lobby.rooms_no_session_check c st n data inv l1 l2 l3 hinv hs h2 h1 h3]
  · intro h1 h2 h3 h4 h5 h6 h7 h8
    have b1 : (action == "register") = false := by simpa using h1
    have b2 : (action == "login") = false := by simpa using h2
    have b3 : (action == "logout") = false := by simpa using h3
    have b4 : (action == "create-room") = false := by simpa using h4
    have b5 : (action == "delete-room") = false := by simpa using h5
    have b6 : (action == "join-room") = false := by simpa using h6
    have b7 : (action == "rooms") = false := by simpa using h7
    have b8 : (action == "list-games") = false := by simpa using h8
    unfold Lobby.dispatch
    simp only [b1, b2, b3, b4, b5, b6, b7, b8, Bool.false_eq_true, if_false,
      Lobby.run_pure]

/-- A store oracle that answers every request with success and an empty
data array. -/
def c1ctx : Lobby.Ctx :=
  { db := fun _ _ => [("status", JVal.js "success"), ("data", JVal.ja [])],
    fsExists := fun _ => false, fsRead := fun _ => none,
    b64e := fun s => s, shaHex := fun s => s, sessUuid := "sid", now := 0 }

/-- A lobby state with an empty active-session table. -/
def c1st : Lobby.LState := { sessions := [], rooms := [], nextPort := 9000 }

/-- A request carrying no sessionID but an invite value. -/
def c1data : Lobby.ReqData :=
  { sessionID := none, id := none, gameId := none,
    invite := some (JVal.js "x"), visibility := none, role := none,
    username := none, password := none }

/-- C1 counterexample to the claim as stated: with an empty session table
(`sessionOk` is false) a `rooms` request is *not* rejected — it runs its
three store queries and returns a status "success" response, so the
dispatcher does not require a valid sessionID for every non-register,
non-login action. -/
theorem claim1_counterexample :
    Lobby.sessionOk c1st c1data.sessionID = false ∧
    (match ((Lobby.dispatch c1ctx none "rooms" c1data).run c1st 0).1 with
     | .ok (r, _) => r.status
     | .error e => e) = "success" ∧
    ((Lobby.dispatch c1ctx none "rooms" c1data).run c1st 0).2.2.2.length = 3 := by
  refine ⟨rfl, rfl, rfl⟩

/-- C1 witness: the amended theorem applied at a concrete invalid-session
`list-games` request. -/
theorem claim1_witness :
    (Lobby.dispatch c1ctx none "list-games" c1data).run c1st 0 =
      (.ok (Lobby.errResp "Invalid session or not logged in.", none), c1st, 0, []) :=
  (claim1_amended c1ctx c1st none "list-games" c1data 0 rfl).1 rfl
